import Mathlib

/-!
# Image catalog of cb-tumblebug (package `mcir`, file `src/core/mcir/image.go`)

A shallow embedding of the image registry: conversion of provider records,
name normalisation, registration in the key-value store and the relational
index, the merge performed by `UpdateImage`, and the synchronisation loops.

Conventions of the embedding

* A Go `error` is an `Option String`: `none` is `nil`, `some msg` carries the
  message. A Go function returning `(T, error)` and touching the stores is a
  function from the store state to `(T × GoError) × Store`.
* A Go slice is a `List`; the `nil` slice and the empty slice are both `[]`
  (both have length 0 and both are dropped by `omitempty`).
* `uint` counters are `Nat`: every counter is bounded by the number of
  elements of a list held in memory, so no wrap-around is reachable.
* JSON text is represented by the object it denotes (`JsonObject`), an ordered
  list of members.
* Collaborators outside the file (naming check, provider driver, failure of
  a store operation, the relational engine, the Unicode case table) are the
  fields of `Env`.
-/

namespace Mcir

/-! ## Data model -/

/-- Go `error`: `none` is `nil`. -/
abbrev GoError := Option String

/-- The struct `common.KeyValue`. -/
structure KeyValue where
  Key : String
  Value : String
deriving DecidableEq, Repr

/-- The struct `common.IID`, the comment in the source reads `{NameId, SystemId}`. -/
structure IID where
  NameId : String
  SystemId : String
deriving DecidableEq, Repr

/-- The struct `SpiderImageInfo`. -/
structure SpiderImageInfo where
  Name : String
  IId : IID
  GuestOS : String
  Status : String
  KeyValueList : List KeyValue
deriving DecidableEq, Repr

/-- The struct `SpiderImageList`. -/
structure SpiderImageList where
  Image : List SpiderImageInfo
deriving DecidableEq, Repr

/-- The struct `TbImageReq`. -/
structure TbImageReq where
  Name : String
  ConnectionName : String
  CspImageId : String
  Description : String
deriving DecidableEq, Repr

/-- The struct `TbImageInfo`. -/
structure TbImageInfo where
  Namespace : String
  Id : String
  Name : String
  ConnectionName : String
  CspImageId : String
  CspImageName : String
  Description : String
  CreationDate : String
  GuestOS : String
  Status : String
  KeyValueList : List KeyValue
  AssociatedObjectList : List String
  IsAutoGenerated : Bool
deriving DecidableEq, Repr

/-- The zero value `TbImageInfo{}`. -/
def TbImageInfo.zero : TbImageInfo :=
  { Namespace := "", Id := "", Name := "", ConnectionName := "", CspImageId := "",
    CspImageName := "", Description := "", CreationDate := "", GuestOS := "",
    Status := "", KeyValueList := [], AssociatedObjectList := [],
    IsAutoGenerated := false }

/-- The zero value `SpiderImageInfo{}`. -/
def SpiderImageInfo.zero : SpiderImageInfo :=
  { Name := "", IId := { NameId := "", SystemId := "" }, GuestOS := "", Status := "",
    KeyValueList := [] }

/-- The constant `common.StrImage`. -/
def StrImage : String := "image"

/-! ## `encoding/json` on `TbImageInfo` -/

/-- A JSON value of one of the shapes the fields of `TbImageInfo` take. -/
inductive JsonValue where
  | str (s : String)
  | bool (b : Bool)
  | strs (l : List String)
  | kvs (l : List KeyValue)
deriving DecidableEq, Repr

/-- A JSON object: its members in order. -/
abbrev JsonObject := List (String × JsonValue)

/-- A string member tagged `omitempty`: left out when the string is empty. -/
def omitemptyStr (name : String) (v : String) : JsonObject :=
  if v = "" then [] else [(name, JsonValue.str v)]

/-- A `[]common.KeyValue` member tagged `omitempty`: left out when the slice has length 0. -/
def omitemptyKvs (name : String) (v : List KeyValue) : JsonObject :=
  if v = [] then [] else [(name, JsonValue.kvs v)]

/-- A `[]string` member tagged `omitempty`: left out when the slice has length 0. -/
def omitemptyStrs (name : String) (v : List String) : JsonObject :=
  if v = [] then [] else [(name, JsonValue.strs v)]

/-- A `bool` member tagged `omitempty`: left out when false. -/
def omitemptyBool (name : String) (v : Bool) : JsonObject :=
  if v = false then [] else [(name, JsonValue.bool v)]

/-- The call `json.Marshal` on a `TbImageInfo`, following the struct tags of the source. -/
def jsonMarshal (t : TbImageInfo) : JsonObject :=
  omitemptyStr "namespace" t.Namespace ++
  omitemptyStr "id" t.Id ++
  omitemptyStr "name" t.Name ++
  omitemptyStr "connectionName" t.ConnectionName ++
  omitemptyStr "cspImageId" t.CspImageId ++
  omitemptyStr "cspImageName" t.CspImageName ++
  omitemptyStr "description" t.Description ++
  omitemptyStr "creationDate" t.CreationDate ++
  omitemptyStr "guestOS" t.GuestOS ++
  omitemptyStr "status" t.Status ++
  omitemptyKvs "keyValueList" t.KeyValueList ++
  omitemptyStrs "associatedObjectList" t.AssociatedObjectList ++
  omitemptyBool "isAutoGenerated" t.IsAutoGenerated

/-- Decoding of one member into the destination struct: a member whose name is
a field's JSON name and whose value has the field's type overwrites the field;
any other member leaves the destination as it is. -/
def jsonSetField (t : TbImageInfo) (name : String) (v : JsonValue) : TbImageInfo :=
  if name = "namespace" then
    match v with | .str s => { t with Namespace := s } | _ => t
  else if name = "id" then
    match v with | .str s => { t with Id := s } | _ => t
  else if name = "name" then
    match v with | .str s => { t with Name := s } | _ => t
  else if name = "connectionName" then
    match v with | .str s => { t with ConnectionName := s } | _ => t
  else if name = "cspImageId" then
    match v with | .str s => { t with CspImageId := s } | _ => t
  else if name = "cspImageName" then
    match v with | .str s => { t with CspImageName := s } | _ => t
  else if name = "description" then
    match v with | .str s => { t with Description := s } | _ => t
  else if name = "creationDate" then
    match v with | .str s => { t with CreationDate := s } | _ => t
  else if name = "guestOS" then
    match v with | .str s => { t with GuestOS := s } | _ => t
  else if name = "status" then
    match v with | .str s => { t with Status := s } | _ => t
  else if name = "keyValueList" then
    match v with | .kvs l => { t with KeyValueList := l } | _ => t
  else if name = "associatedObjectList" then
    match v with | .strs l => { t with AssociatedObjectList := l } | _ => t
  else if name = "isAutoGenerated" then
    match v with | .bool b => { t with IsAutoGenerated := b } | _ => t
  else t

/-- The call `json.Unmarshal(data, &dest)`: the members of the object are
decoded in order over the current content of `dest`. -/
def jsonUnmarshal (data : JsonObject) (dest : TbImageInfo) : TbImageInfo :=
  data.foldl (fun acc m => jsonSetField acc m.1 m.2) dest

/-! ## Collaborators -/

/-- Modelled from the spec: the function `common.LookupKeyValueList` (package
`common`, outside `image.go`). The spec has the values "looked up
from the attribute list by fixed keys, defaulting to empty string if absent":
the value of the first entry with the given key, the empty string when no
entry has it. -/
def LookupKeyValueList (kvl : List KeyValue) (key : String) : String :=
  match kvl with
  | [] => ""
  | v :: rest => if v.Key = key then v.Value else LookupKeyValueList rest key

/-- The struct `common.ConnConfig`, of which the code at hand reads `ConfigName`. -/
structure ConnConfig where
  ConfigName : String
deriving DecidableEq, Repr

/-- The struct `common.ConnConfigList`. -/
structure ConnConfigList where
  Connectionconfig : List ConnConfig
deriving DecidableEq, Repr

/-- Modelled from the spec: the resource key built by `common.GenResourceKey`
(package `common`, outside `image.go`). The spec: "Keys are
structured paths scoped by namespace, resource-kind, and id." -/
structure ResourceKey where
  nsId : String
  resourceType : String
  resourceId : String
deriving DecidableEq, Repr

/-- Modelled from the spec: the function `common.GenResourceKey`, "a structured
path derived from (namespace, resource-kind, id)". -/
def GenResourceKey (nsId resourceType resourceId : String) : ResourceKey :=
  { nsId := nsId, resourceType := resourceType, resourceId := resourceId }

/-- The two stores: the content of the key-value store `common.CBStore` and
the rows of the relational index behind `common.ORM`. -/
structure Store where
  kv : List (ResourceKey × JsonObject)
  rdb : List TbImageInfo
deriving DecidableEq, Repr

/-- The collaborators of the file. -/
structure Env where
  /-- The naming check `common.CheckString`; `none` when the string obeys the convention. -/
  CheckString : String → GoError
  /-- The rune mapping `unicode.ToLower` behind `strings.ToLower`. -/
  unicodeToLower : Char → Char
  /-- The transport of `LookupImage` (REST or gRPC call to the driver). -/
  spiderGetImage : String → String → SpiderImageInfo × GoError
  /-- The transport of `LookupImageList` (REST or gRPC call to the driver). -/
  spiderListImage : String → SpiderImageList × GoError
  /-- The call `common.GetConnConfigList()`. -/
  GetConnConfigList : ConnConfigList × GoError
  /-- Failure of `CBStore.Put` on a key and a value; `none` when the write goes through. -/
  cbStorePutErr : ResourceKey → JsonObject → GoError
  /-- Failure of `CBStore.Get` on a key; `none` when the read goes through. -/
  cbStoreGetErr : ResourceKey → GoError
  /-- The call `ORM.Insert(row)`: the rows afterwards and the error. -/
  ormInsert : List TbImageInfo → TbImageInfo → List TbImageInfo × GoError
  /-- The call `ORM.Update(row, condition)`: the rows afterwards and the error. -/
  ormUpdate : List TbImageInfo → TbImageInfo → TbImageInfo → List TbImageInfo × GoError

/-- The value stored under a key, if any. -/
def kvGet (kv : List (ResourceKey × JsonObject)) (key : ResourceKey) : Option JsonObject :=
  match kv with
  | [] => none
  | (k, v) :: rest => if k = key then some v else kvGet rest key

/-- The content after writing a value under a key: the value replaces the one
stored under that key, or is added when the key is new. -/
def kvPut (kv : List (ResourceKey × JsonObject)) (key : ResourceKey) (val : JsonObject) :
    List (ResourceKey × JsonObject) :=
  match kv with
  | [] => [(key, val)]
  | (k, v) :: rest => if k = key then (key, val) :: rest else (k, v) :: kvPut rest key val

/-- The call `common.CBStore.Put(Key, Val)`. -/
def CBStorePut (env : Env) (s : Store) (key : ResourceKey) (val : JsonObject) :
    GoError × Store :=
  match env.cbStorePutErr key val with
  | some err => (some err, s)
  | none => (none, { s with kv := kvPut s.kv key val })

/-- The call `common.CBStore.Get(Key)`: the stored value (`none` for a `nil` result). -/
def CBStoreGet (env : Env) (s : Store) (key : ResourceKey) : Option JsonObject × GoError :=
  match env.cbStoreGetErr key with
  | some err => (none, some err)
  | none => (kvGet s.kv key, none)

/-- Modelled from the spec: the function `CheckResource` (package `mcir`, outside
`image.go`), the "existence check keyed by (namespace,
resource-kind, id)", which either finds the entry, does not find it, or
"itself errors". -/
def CheckResource (env : Env) (s : Store) (nsId resourceType resourceId : String) :
    Bool × GoError :=
  match CBStoreGet env s (GenResourceKey nsId resourceType resourceId) with
  | (_, some err) => (false, some err)
  | (some _, none) => (true, none)
  | (none, none) => (false, none)

/-- Modelled from the spec: the function `GetResource` (package `mcir`, outside
`image.go`), the "typed fetch by (namespace, resource-kind,
id)": the stored value decoded into a fresh `TbImageInfo`. -/
def GetResource (env : Env) (s : Store) (nsId resourceType resourceId : String) :
    Option TbImageInfo × GoError :=
  match CBStoreGet env s (GenResourceKey nsId resourceType resourceId) with
  | (_, some err) => (none, some err)
  | (none, none) => (none, some ("The " ++ resourceType ++ " " ++ resourceId ++ " does not exist."))
  | (some v, none) => (some (jsonUnmarshal v TbImageInfo.zero), none)

/-- Modelled from the spec: the function `common.CopySrcToDest` (package
`common`, outside `image.go`), by which the "untyped value" of
the generic fetch is "asserted to a concrete shape": the fetched record, or an
error when the fetch gave nothing. -/
def CopySrcToDest (src : Option TbImageInfo) (dest : TbImageInfo) : TbImageInfo × GoError :=
  match src with
  | some t => (t, none)
  | none => (dest, some "CopySrcToDest: nil source")

/-- The function `TbImageReqStructLevelValidation`: the errors it reports. -/
def TbImageReqStructLevelValidation (env : Env) (u : TbImageReq) : List String :=
  match env.CheckString u.Name with
  | some _ => ["Key: 'TbImageReq.name' Error:Field validation for 'name' failed on the " ++
      "'NotObeyingNamingConvention' tag"]
  | none => []

/-- One field tagged `validate:"required"`: an error when the string is empty.
The validator of the package reports a field under the name of its `json`
tag, which is the argument `field`. -/
def validateRequired (field : String) (v : String) : List String :=
  if v = "" then
    ["Key: 'TbImageReq." ++ field ++ "' Error:Field validation for '" ++ field ++
      "' failed on the 'required' tag"]
  else []

/-- The call `validate.Struct(u)` on a `TbImageReq`: the `required` tags of the
struct, each field under the name of its `json` tag, then the struct-level
validation. -/
def validateStruct (env : Env) (u : TbImageReq) : GoError :=
  let errs := validateRequired "name" u.Name ++ validateRequired "connectionName" u.ConnectionName ++
    validateRequired "cspImageId" u.CspImageId ++ TbImageReqStructLevelValidation env u
  if errs = [] then none else some ("\n".intercalate errs)

/-! ## Conversion and name normalisation -/

/-- The function `ConvertSpiderImageToTumblebugImage`. -/
def ConvertSpiderImageToTumblebugImage (spiderImage : SpiderImageInfo) :
    TbImageInfo × GoError :=
  if spiderImage.IId.NameId = "" then
    (TbImageInfo.zero,
      some "ConvertSpiderImageToTumblebugImage failed; spiderImage.IId.NameId == \"\" ")
  else
    let tumblebugImage := TbImageInfo.zero
    let spiderKeyValueListName := LookupKeyValueList spiderImage.KeyValueList "Name"
    let tumblebugImage :=
      if spiderKeyValueListName.length > 0 then
        { tumblebugImage with Name := spiderKeyValueListName }
      else
        { tumblebugImage with Name := spiderImage.IId.NameId }
    let tumblebugImage := { tumblebugImage with CspImageId := spiderImage.IId.NameId }
    let tumblebugImage :=
      { tumblebugImage with CspImageName := LookupKeyValueList spiderImage.KeyValueList "Name" }
    let tumblebugImage :=
      { tumblebugImage with
        Description := LookupKeyValueList spiderImage.KeyValueList "Description" }
    let tumblebugImage :=
      { tumblebugImage with
        CreationDate := LookupKeyValueList spiderImage.KeyValueList "CreationDate" }
    let tumblebugImage := { tumblebugImage with GuestOS := spiderImage.GuestOS }
    let tumblebugImage := { tumblebugImage with Status := spiderImage.Status }
    let tumblebugImage := { tumblebugImage with KeyValueList := spiderImage.KeyValueList }
    (tumblebugImage, none)

/-- The call `strings.ToLower`: every rune is replaced by its lower-case form.
The rune mapping `unicode.ToLower` is the argument `lower`. -/
def stringsToLower (lower : Char → Char) (s : String) : String :=
  String.mk (s.data.map lower)

/-- The call `strings.ReplaceAll(s, old, new)` for one-character `old` and `new`. -/
def stringsReplaceAll (s : String) (old new : Char) : String :=
  String.mk (s.data.map (fun c => if c = old then new else c))

/-- The function `RefineImageName`. -/
def RefineImageName (lower : Char → Char) (imageName : String) : String :=
  let out := stringsToLower lower imageName
  let out := stringsReplaceAll out '.' '-'
  let out := stringsReplaceAll out '_' '-'
  let out := stringsReplaceAll out ':' '-'
  let out := stringsReplaceAll out '/' '-'
  out

/-! ## Registration -/

/-- The function `LookupImage`: the guards of the source, then the driver call. -/
def LookupImage (env : Env) (connConfig imageId : String) : SpiderImageInfo × GoError :=
  if connConfig = "" then
    (SpiderImageInfo.zero, some "LookupImage() called with empty connConfig.")
  else if imageId = "" then
    (SpiderImageInfo.zero, some "LookupImage() called with empty imageId.")
  else
    match env.spiderGetImage connConfig imageId with
    | (_, some err) => (SpiderImageInfo.zero, some err)
    | (temp, none) => (temp, none)

/-- The function `LookupImageList`: the guard of the source, then the driver call. -/
def LookupImageList (env : Env) (connConfig : String) : SpiderImageList × GoError :=
  if connConfig = "" then
    ({ Image := [] }, some "LookupImage() called with empty connConfig.")
  else
    match env.spiderListImage connConfig with
    | (_, some err) => ({ Image := [] }, some err)
    | (temp, none) => (temp, none)

/-- The call `common.ORM.Insert(&content)`; its error is printed and dropped. -/
def ORMInsert (env : Env) (s : Store) (content : TbImageInfo) : Store :=
  { s with rdb := (env.ormInsert s.rdb content).1 }

/-- The call `common.ORM.Update(&toBe, &cond)`; its error is printed and dropped. -/
def ORMUpdate (env : Env) (s : Store) (toBe cond : TbImageInfo) : Store :=
  { s with rdb := (env.ormUpdate s.rdb toBe cond).1 }

/-- The function `RegisterImageWithId`. -/
def RegisterImageWithId (env : Env) (s : Store) (nsId : String) (u : TbImageReq) :
    (TbImageInfo × GoError) × Store :=
  let resourceType := StrImage
  match env.CheckString nsId with
  | some err => ((TbImageInfo.zero, some err), s)
  | none =>
  match validateStruct env u with
  | some err => ((TbImageInfo.zero, some err), s)
  | none =>
  match CheckResource env s nsId resourceType u.Name with
  | (true, _) => ((TbImageInfo.zero, some ("The image " ++ u.Name ++ " already exists.")), s)
  | (false, some _) =>
    ((TbImageInfo.zero, some ("Failed to check the existence of the image " ++ u.Name ++ ".")), s)
  | (false, none) =>
  match LookupImage env u.ConnectionName u.CspImageId with
  | (_, some err) => ((TbImageInfo.zero, some err), s)
  | (res, none) =>
  match ConvertSpiderImageToTumblebugImage res with
  | (_, some err) => ((TbImageInfo.zero, some err), s)
  | (content, none) =>
  let content := { content with Namespace := nsId }
  let content := { content with ConnectionName := u.ConnectionName }
  let content := { content with Id := u.Name }
  let content := { content with Name := u.Name }
  let content := { content with AssociatedObjectList := [] }
  let Key := GenResourceKey nsId resourceType content.Id
  let Val := jsonMarshal content
  match CBStorePut env s Key Val with
  | (some err, s1) => ((content, some err), s1)
  | (none, s1) =>
  -- the read-back `CBStore.Get(Key)` only prints
  let s2 := ORMInsert env s1 content
  ((content, none), s2)

/-- The function `RegisterImageWithInfo`. The record behind the pointer
`content` is changed only on the paths that return `*content`, so the returned
record is also what the caller's record holds afterwards. -/
def RegisterImageWithInfo (env : Env) (s : Store) (nsId : String) (content : TbImageInfo) :
    (TbImageInfo × GoError) × Store :=
  let resourceType := StrImage
  match env.CheckString nsId with
  | some err => ((TbImageInfo.zero, some err), s)
  | none =>
  match env.CheckString content.Name with
  | some err => ((TbImageInfo.zero, some err), s)
  | none =>
  match CheckResource env s nsId resourceType content.Name with
  | (true, _) =>
    ((TbImageInfo.zero, some ("The image " ++ content.Name ++ " already exists.")), s)
  | (false, some _) =>
    ((TbImageInfo.zero,
      some ("Failed to check the existence of the image " ++ content.Name ++ ".")), s)
  | (false, none) =>
  let content := { content with Namespace := nsId }
  let content := { content with Id := content.Name }
  let content := { content with AssociatedObjectList := [] }
  let Key := GenResourceKey nsId resourceType content.Id
  let Val := jsonMarshal content
  match CBStorePut env s Key Val with
  | (some err, s1) => ((content, some err), s1)
  | (none, s1) =>
  -- the read-back `CBStore.Get(Key)` only prints
  let s2 := ORMInsert env s1 content
  ((content, none), s2)

/-! ## Synchronisation -/

/-- The loop of `FetchImagesForConnConfig` over `spiderImageList.Image`, from
the current value of `imageCount` and the current stores. -/
def fetchImagesLoop (env : Env) (connConfig nsId : String) :
    List SpiderImageInfo → Nat → Store → (Nat × GoError) × Store
  | [], imageCount, s => ((imageCount, none), s)
  | spiderImage :: rest, imageCount, s =>
    match ConvertSpiderImageToTumblebugImage spiderImage with
    | (_, some err) => ((0, some err), s)
    | (tumblebugImage, none) =>
      let tumblebugImageId :=
        connConfig ++ "-" ++ RefineImageName env.unicodeToLower tumblebugImage.Name
      match CheckResource env s nsId StrImage tumblebugImageId with
      | (true, _) => fetchImagesLoop env connConfig nsId rest imageCount s
      | (false, some _) => fetchImagesLoop env connConfig nsId rest imageCount s
      | (false, none) =>
        let tumblebugImage := { tumblebugImage with Name := tumblebugImageId }
        let tumblebugImage := { tumblebugImage with ConnectionName := connConfig }
        match RegisterImageWithInfo env s nsId tumblebugImage with
        | ((_, some err), s1) => ((0, some err), s1)
        | ((_, none), s1) => fetchImagesLoop env connConfig nsId rest (imageCount + 1) s1

/-- The function `FetchImagesForConnConfig`. -/
def FetchImagesForConnConfig (env : Env) (s : Store) (connConfig nsId : String) :
    (Nat × GoError) × Store :=
  match LookupImageList env connConfig with
  | (_, some err) => ((0, some err), s)
  | (spiderImageList, none) =>
    fetchImagesLoop env connConfig nsId spiderImageList.Image 0 s

/-- The loop of `FetchImagesForAllConnConfigs` over `connConfigs.Connectionconfig`,
from the current values of `connConfigCount` and `imageCount`. -/
def fetchAllLoop (env : Env) (nsId : String) :
    List ConnConfig → Nat → Nat → Store → (Nat × Nat) × Store
  | [], connConfigCount, imageCount, s => ((connConfigCount, imageCount), s)
  | connConfig :: rest, connConfigCount, imageCount, s =>
    let r := FetchImagesForConnConfig env s connConfig.ConfigName nsId
    let temp := r.1.1
    fetchAllLoop env nsId rest (connConfigCount + 1) (imageCount + temp) r.2

/-- The function `FetchImagesForAllConnConfigs`: `(connConfigCount, imageCount, err)`. -/
def FetchImagesForAllConnConfigs (env : Env) (s : Store) (nsId : String) :
    (Nat × Nat × GoError) × Store :=
  match env.CheckString nsId with
  | some err => ((0, 0, some err), s)
  | none =>
  match env.GetConnConfigList with
  | (_, some err) => ((0, 0, some err), s)
  | (connConfigs, none) =>
    let r := fetchAllLoop env nsId connConfigs.Connectionconfig 0 0 s
    ((r.1.1, r.1.2, none), r.2)

/-! ## Update -/

/-- The function `UpdateImage`. -/
def UpdateImage (env : Env) (s : Store) (nsId imageId : String) (fieldsToUpdate : TbImageInfo) :
    (TbImageInfo × GoError) × Store :=
  let resourceType := StrImage
  match env.CheckString nsId with
  | some err => ((TbImageInfo.zero, some err), s)
  | none =>
  if fieldsToUpdate.Namespace.length > 0 then
    ((TbImageInfo.zero, some "You should not specify 'namespace' in the JSON request body."), s)
  else if fieldsToUpdate.Id.length > 0 then
    ((TbImageInfo.zero, some "You should not specify 'id' in the JSON request body."), s)
  else
  match CheckResource env s nsId resourceType imageId with
  | (_, some err) => ((TbImageInfo.zero, some err), s)
  | (false, none) =>
    ((TbImageInfo.zero, some ("The image " ++ imageId ++ " does not exist.")), s)
  | (true, none) =>
  match GetResource env s nsId resourceType imageId with
  | (_, some _) => ((TbImageInfo.zero, some ("Failed to get the image " ++ imageId ++ ".")), s)
  | (tempInterface, none) =>
  match CopySrcToDest tempInterface TbImageInfo.zero with
  | (_, some _) => ((TbImageInfo.zero, some ("Failed to CopySrcToDest() " ++ imageId ++ ".")), s)
  | (asIsImage, none) =>
  -- Update specified fields only
  let toBeImage := asIsImage
  let toBeImageJSON := jsonMarshal fieldsToUpdate
  let toBeImage := jsonUnmarshal toBeImageJSON toBeImage
  let Key := GenResourceKey nsId resourceType toBeImage.Id
  let Val := jsonMarshal toBeImage
  match CBStorePut env s Key Val with
  | (some err, s1) => ((TbImageInfo.zero, some err), s1)
  | (none, s1) =>
  -- the read-back `CBStore.Get(Key)` only logs
  let s2 := ORMUpdate env s1 toBeImage { TbImageInfo.zero with Namespace := nsId, Id := imageId }
  ((toBeImage, none), s2)

/-! ## A concrete environment -/

/-- An environment in which every string passes the naming check, the driver
of connection "aws" lists two images and answers a lookup with an image of the
requested identifier, and no store operation fails. -/
def sampleEnv : Env :=
  { CheckString := fun _ => none,
    unicodeToLower := Char.toLower,
    spiderGetImage := fun _ imageId =>
      ({ Name := "", IId := { NameId := imageId, SystemId := imageId }, GuestOS := "Ubuntu",
         Status := "available", KeyValueList := [] }, none),
    spiderListImage := fun connConfig =>
      if connConfig = "aws" then
        ({ Image :=
            [{ Name := "", IId := { NameId := "ami-1", SystemId := "" }, GuestOS := "",
               Status := "", KeyValueList := [] },
             { Name := "", IId := { NameId := "ami-2", SystemId := "" }, GuestOS := "",
               Status := "", KeyValueList := [] }] }, none)
      else ({ Image := [] }, some "connection not found"),
    GetConnConfigList := ({ Connectionconfig := [{ ConfigName := "aws" }] }, none),
    cbStorePutErr := fun _ _ => none,
    cbStoreGetErr := fun _ => none,
    ormInsert := fun rows row => (rows ++ [row], none),
    ormUpdate := fun rows _ _ => (rows, none) }

/-- The stores with nothing in them. -/
def emptyStore : Store := { kv := [], rdb := [] }

/-- The stores holding the image "img" of namespace "ns1", registered from the
provider image "ami-0". -/
def sampleStore : Store :=
  { kv := [(GenResourceKey "ns1" StrImage "img",
      jsonMarshal { TbImageInfo.zero with
        Namespace := "ns1", Id := "img", Name := "img", CspImageId := "ami-0" })],
    rdb := [{ TbImageInfo.zero with
        Namespace := "ns1", Id := "img", Name := "img", CspImageId := "ami-0" }] }

/-! ## Definitions used by the statements -/

/-- A provider record whose attribute list has an entry keyed "Name" with an empty value. -/
def spiderImageEmptyNameEntry : SpiderImageInfo :=
  { Name := "", IId := { NameId := "ami-1", SystemId := "" }, GuestOS := "", Status := "",
    KeyValueList := [{ Key := "Name", Value := "" }] }

/-- The four characters that `RefineImageName` replaces by a hyphen. -/
def isSeparator (c : Char) : Bool :=
  c = '.' || c = '_' || c = ':' || c = '/'

/-- The merge in the words of the spec: a field of the update that is present
(non-default) overwrites the field of the existing record, a field that is
absent (default-valued) leaves the existing value. -/
def overwriteNonDefault (existing update : TbImageInfo) : TbImageInfo :=
  { Namespace := if update.Namespace = "" then existing.Namespace else update.Namespace,
    Id := if update.Id = "" then existing.Id else update.Id,
    Name := if update.Name = "" then existing.Name else update.Name,
    ConnectionName :=
      if update.ConnectionName = "" then existing.ConnectionName else update.ConnectionName,
    CspImageId := if update.CspImageId = "" then existing.CspImageId else update.CspImageId,
    CspImageName :=
      if update.CspImageName = "" then existing.CspImageName else update.CspImageName,
    Description := if update.Description = "" then existing.Description else update.Description,
    CreationDate :=
      if update.CreationDate = "" then existing.CreationDate else update.CreationDate,
    GuestOS := if update.GuestOS = "" then existing.GuestOS else update.GuestOS,
    Status := if update.Status = "" then existing.Status else update.Status,
    KeyValueList := if update.KeyValueList = [] then existing.KeyValueList else update.KeyValueList,
    AssociatedObjectList :=
      if update.AssociatedObjectList = [] then existing.AssociatedObjectList
      else update.AssociatedObjectList,
    IsAutoGenerated :=
      if update.IsAutoGenerated = false then existing.IsAutoGenerated
      else update.IsAutoGenerated }

/-- The record that `RegisterImageWithInfo` writes: the caller's record with
`Namespace`, `Id` and `AssociatedObjectList` set as in lines 254 to 257. -/
def registeredInfo (nsId : String) (content : TbImageInfo) : TbImageInfo :=
  { content with Namespace := nsId, Id := content.Name, AssociatedObjectList := [] }

/-- The record that `RegisterImageWithId` writes: the converted provider record
with the fields set in lines 190 to 194. -/
def registeredFromId (nsId : String) (u : TbImageReq) (content : TbImageInfo) : TbImageInfo :=
  { content with
    Namespace := nsId, ConnectionName := u.ConnectionName, Id := u.Name, Name := u.Name,
    AssociatedObjectList := [] }

/-- What the successive calls of `FetchImagesForConnConfig` return when the
targets are processed in order, each on the stores left by the one before. -/
def perTargetResults (env : Env) (nsId : String) :
    List ConnConfig → Store → List (Nat × GoError)
  | [], _ => []
  | connConfig :: rest, s =>
    (FetchImagesForConnConfig env s connConfig.ConfigName nsId).1 ::
      perTargetResults env nsId rest (FetchImagesForConnConfig env s connConfig.ConfigName nsId).2

/-- An environment with three connection targets, of which the second one
("gcp") fails to list its images. -/
def threeTargetEnv : Env :=
  { sampleEnv with
    GetConnConfigList :=
      ({ Connectionconfig :=
          [{ ConfigName := "aws" }, { ConfigName := "gcp" }, { ConfigName := "ncp" }] }, none),
    spiderListImage := fun connConfig =>
      if connConfig = "aws" then
        ({ Image :=
            [{ Name := "", IId := { NameId := "ami-1", SystemId := "" }, GuestOS := "",
               Status := "", KeyValueList := [] },
             { Name := "", IId := { NameId := "ami-2", SystemId := "" }, GuestOS := "",
               Status := "", KeyValueList := [] }] }, none)
      else if connConfig = "ncp" then
        ({ Image :=
            [{ Name := "", IId := { NameId := "SW.VSVR.OS.LNX64", SystemId := "" },
               GuestOS := "", Status := "", KeyValueList := [] }] }, none)
      else ({ Image := [] }, some "an error occurred while requesting to CB-Spider") }

/-- Every image record of the key-value store, decoded, has a non-empty `CspImageId`. -/
def allCspImageIdsSet (s : Store) : Bool :=
  s.kv.all (fun x =>
    decide (x.1.resourceType = StrImage →
      (jsonUnmarshal x.2 TbImageInfo.zero).CspImageId ≠ ""))

/-- The id that `FetchImagesForConnConfig` derives for a provider record
(line 488): the connection name, a hyphen, and the normalised name of the
converted record. -/
def tumblebugImageIdOf (env : Env) (connConfig : String) (spiderImage : SpiderImageInfo) :
    String :=
  connConfig ++ "-" ++
    RefineImageName env.unicodeToLower (ConvertSpiderImageToTumblebugImage spiderImage).1.Name

/-- The image entries of a namespace in the key-value store. -/
def imageEntries (s : Store) (nsId : String) : List (ResourceKey × JsonObject) :=
  s.kv.filter (fun x => decide (x.1.nsId = nsId ∧ x.1.resourceType = StrImage))

/-- An environment whose driver lists two images with distinct identifiers
"ami-1" and "ami-2" and the same attribute "Name". -/
def sameNameEnv : Env :=
  { sampleEnv with
    spiderListImage := fun _ =>
      ({ Image :=
          [{ Name := "", IId := { NameId := "ami-1", SystemId := "" }, GuestOS := "",
             Status := "", KeyValueList := [{ Key := "Name", Value := "ubuntu-20.04" }] },
           { Name := "", IId := { NameId := "ami-2", SystemId := "" }, GuestOS := "",
             Status := "", KeyValueList := [{ Key := "Name", Value := "ubuntu-20.04" }] }] },
        none) }

/-- A provider record with the attributes "Name" and "Description" and
without the attribute "CreationDate". -/
def spiderImageWithAttributes : SpiderImageInfo :=
  { Name := "", IId := { NameId := "ami-1", SystemId := "i-1" }, GuestOS := "Ubuntu",
    Status := "available",
    KeyValueList := [{ Key := "Name", Value := "Ubuntu 20.04" },
      { Key := "Description", Value := "LTS" }] }

/-- An environment whose driver lists three records, the second one with an
empty identifier. -/
def brokenListEnv : Env :=
  { sampleEnv with
    spiderListImage := fun _ =>
      ({ Image :=
          [{ Name := "", IId := { NameId := "ami-1", SystemId := "" }, GuestOS := "",
             Status := "", KeyValueList := [] },
           { Name := "", IId := { NameId := "", SystemId := "" }, GuestOS := "",
             Status := "", KeyValueList := [] },
           { Name := "", IId := { NameId := "ami-3", SystemId := "" }, GuestOS := "",
             Status := "", KeyValueList := [] }] },
        none) }

/-- An environment like `sampleEnv` whose naming check turns down the empty string. -/
def emptyNameRejectingEnv : Env :=
  { sampleEnv with
    CheckString := fun name =>
      if name = "" then some "the name does not obey the naming convention" else none }

/-! ## Lemmas on the collaborators -/

theorem string_eq_empty_of_length (s : String) (h : s.length = 0) : s = "" := by
  cases s with
  | mk d =>
    have hd : d = [] := List.length_eq_zero.mp h
    subst hd
    rfl

theorem LookupKeyValueList_eq_find (kvl : List KeyValue) (key : String) :
    LookupKeyValueList kvl key =
      match kvl.find? (fun kv => decide (kv.Key = key)) with
      | some e => e.Value
      | none => "" := by
  induction kvl with
  | nil => rfl
  | cons v rest ih =>
    by_cases h : v.Key = key
    · simp [LookupKeyValueList, List.find?, h]
    · simp [LookupKeyValueList, List.find?, h, ih]

/-! ## Conversion -/

theorem convert_of_empty (sp : SpiderImageInfo) (h : sp.IId.NameId = "") :
    ConvertSpiderImageToTumblebugImage sp =
      (TbImageInfo.zero,
        some "ConvertSpiderImageToTumblebugImage failed; spiderImage.IId.NameId == \"\" ") := by
  simp [ConvertSpiderImageToTumblebugImage, h]

theorem convert_err_of_nonempty (sp : SpiderImageInfo) (h : sp.IId.NameId ≠ "") :
    (ConvertSpiderImageToTumblebugImage sp).2 = none := by
  simp [ConvertSpiderImageToTumblebugImage, h]

theorem convert_cspImageId (sp : SpiderImageInfo) (h : sp.IId.NameId ≠ "") :
    (ConvertSpiderImageToTumblebugImage sp).1.CspImageId = sp.IId.NameId := by
  simp [ConvertSpiderImageToTumblebugImage, h]

theorem convert_name (sp : SpiderImageInfo) (h : sp.IId.NameId ≠ "") :
    (ConvertSpiderImageToTumblebugImage sp).1.Name =
      if LookupKeyValueList sp.KeyValueList "Name" = "" then sp.IId.NameId
      else LookupKeyValueList sp.KeyValueList "Name" := by
  by_cases hl : LookupKeyValueList sp.KeyValueList "Name" = ""
  · simp [ConvertSpiderImageToTumblebugImage, h, hl]
  · have hpos : 0 < (LookupKeyValueList sp.KeyValueList "Name").length := by
      rcases Nat.eq_zero_or_pos (LookupKeyValueList sp.KeyValueList "Name").length with h0 | h0
      · exact absurd (string_eq_empty_of_length _ h0) hl
      · exact h0
    simp [ConvertSpiderImageToTumblebugImage, h, hl, hpos]

/-- C7: `ConvertSpiderImageToTumblebugImage` returns an error exactly when the
logical name-identifier `IId.NameId` of the provider record is empty; in that
case the returned record is the empty record; and a record in which every
other field is empty or missing is converted without error. -/
theorem C7_convert_fails_iff_empty_nameId (sp : SpiderImageInfo) :
    ((ConvertSpiderImageToTumblebugImage sp).2 ≠ none ↔ sp.IId.NameId = "") ∧
    ((ConvertSpiderImageToTumblebugImage sp).2 ≠ none →
      (ConvertSpiderImageToTumblebugImage sp).1 = TbImageInfo.zero) ∧
    (sp.IId.NameId ≠ "" →
      (ConvertSpiderImageToTumblebugImage
        { Name := "", IId := { NameId := sp.IId.NameId, SystemId := "" }, GuestOS := "",
          Status := "", KeyValueList := [] }).2 = none) := by
  refine ⟨?_, ?_, ?_⟩
  · constructor
    · intro herr
      by_contra hne
      exact herr (convert_err_of_nonempty sp hne)
    · intro h
      rw [convert_of_empty sp h]
      simp
  · intro herr
    by_cases h : sp.IId.NameId = ""
    · rw [convert_of_empty sp h]
    · exact absurd (convert_err_of_nonempty sp h) herr
  · intro h
    exact convert_err_of_nonempty _ h

/-- Witness of C7 at the empty provider record and at a record that has only a name-identifier. -/
theorem C7_convert_fails_iff_empty_nameId_witness :
    (ConvertSpiderImageToTumblebugImage SpiderImageInfo.zero).2 ≠ none ∧
    (ConvertSpiderImageToTumblebugImage SpiderImageInfo.zero).1 = TbImageInfo.zero ∧
    (ConvertSpiderImageToTumblebugImage
        { Name := "", IId := { NameId := "ami-1", SystemId := "" }, GuestOS := "",
          Status := "", KeyValueList := [] }).2 = none :=
  ⟨(C7_convert_fails_iff_empty_nameId SpiderImageInfo.zero).1.mpr rfl,
   (C7_convert_fails_iff_empty_nameId SpiderImageInfo.zero).2.1
     ((C7_convert_fails_iff_empty_nameId SpiderImageInfo.zero).1.mpr rfl),
   (C7_convert_fails_iff_empty_nameId
      { Name := "", IId := { NameId := "ami-1", SystemId := "" }, GuestOS := "",
        Status := "", KeyValueList := [] }).2.2 (by decide)⟩

/-- C8 as stated fails: the attribute list of `spiderImageEmptyNameEntry` has an
entry keyed "Name", its value is the empty string, and the converted record is
named after `IId.NameId`, not after the value of that entry. -/
theorem C8_counterexample_empty_name_entry :
    spiderImageEmptyNameEntry.IId.NameId ≠ "" ∧
    (∃ e ∈ spiderImageEmptyNameEntry.KeyValueList, e.Key = "Name" ∧ e.Value = "") ∧
    (ConvertSpiderImageToTumblebugImage spiderImageEmptyNameEntry).1.Name = "ami-1" ∧
    ¬ (∀ sp : SpiderImageInfo, sp.IId.NameId ≠ "" →
        ∀ e, sp.KeyValueList.find? (fun kv => decide (kv.Key = "Name")) = some e →
          (ConvertSpiderImageToTumblebugImage sp).1.Name = e.Value) := by
  refine ⟨by decide, ⟨⟨"Name", ""⟩, by simp [spiderImageEmptyNameEntry], rfl, rfl⟩, by decide, ?_⟩
  intro h
  have h1 := h spiderImageEmptyNameEntry (by decide) ⟨"Name", ""⟩ (by decide)
  revert h1
  decide

/-- C8 (amended): for a provider record with a non-empty `IId.NameId`, the name
of the converted record is the value of the first attribute-list entry keyed
"Name" when that value is non-empty, and is `IId.NameId` when the attribute
list has no entry keyed "Name" or when the value of that entry is empty. -/
theorem C8_convert_name (sp : SpiderImageInfo) (h : sp.IId.NameId ≠ "") :
    (∀ e, sp.KeyValueList.find? (fun kv => decide (kv.Key = "Name")) = some e →
      e.Value ≠ "" → (ConvertSpiderImageToTumblebugImage sp).1.Name = e.Value) ∧
    (∀ e, sp.KeyValueList.find? (fun kv => decide (kv.Key = "Name")) = some e →
      e.Value = "" → (ConvertSpiderImageToTumblebugImage sp).1.Name = sp.IId.NameId) ∧
    ((∀ e ∈ sp.KeyValueList, e.Key ≠ "Name") →
      (ConvertSpiderImageToTumblebugImage sp).1.Name = sp.IId.NameId) := by
  have hname := convert_name sp h
  have hfind := LookupKeyValueList_eq_find sp.KeyValueList "Name"
  refine ⟨?_, ?_, ?_⟩
  · intro e he hv
    rw [he] at hfind
    rw [hname, hfind]
    simp [hv]
  · intro e he hv
    rw [he] at hfind
    rw [hname, hfind]
    simp [hv]
  · intro hall
    have hnone : sp.KeyValueList.find? (fun kv => decide (kv.Key = "Name")) = none := by
      rw [List.find?_eq_none]
      intro x hx
      simpa using hall x hx
    rw [hnone] at hfind
    rw [hname, hfind]
    simp

/-- Witness of C8 (amended): an entry keyed "Name" with a value, one with an
empty value, and no such entry. -/
theorem C8_convert_name_witness :
    (ConvertSpiderImageToTumblebugImage
      { Name := "", IId := { NameId := "ami-1", SystemId := "" }, GuestOS := "", Status := "",
        KeyValueList := [{ Key := "Name", Value := "Ubuntu" }] }).1.Name = "Ubuntu" ∧
    (ConvertSpiderImageToTumblebugImage spiderImageEmptyNameEntry).1.Name = "ami-1" ∧
    (ConvertSpiderImageToTumblebugImage
      { Name := "", IId := { NameId := "ami-1", SystemId := "" }, GuestOS := "", Status := "",
        KeyValueList := [{ Key := "Description", Value := "d" }] }).1.Name = "ami-1" :=
  ⟨(C8_convert_name _ (by decide)).1 ⟨"Name", "Ubuntu"⟩ (by decide) (by decide),
   (C8_convert_name spiderImageEmptyNameEntry (by decide)).2.1 ⟨"Name", ""⟩ (by decide)
     (by decide),
   (C8_convert_name _ (by decide)).2.2 (by decide)⟩

/-! ## Name normalisation -/

theorem stringsReplaceAll_data (s : String) (old new : Char) :
    (stringsReplaceAll s old new).data = s.data.map (fun c => if c = old then new else c) := by
  rfl

theorem RefineImageName_data (lower : Char → Char) (s : String) :
    (RefineImageName lower s).data =
      s.data.map (fun c => if isSeparator (lower c) then '-' else lower c) := by
  simp only [RefineImageName, stringsReplaceAll_data, stringsToLower, List.map_map]
  apply List.map_congr_left
  intro c _
  simp only [Function.comp, isSeparator]
  by_cases h1 : lower c = '.'
  · simp [h1]
  · by_cases h2 : lower c = '_'
    · simp [h2]
    · by_cases h3 : lower c = ':'
      · simp [h3]
      · by_cases h4 : lower c = '/'
        · simp [h4]
        · simp [h1, h2, h3, h4]

theorem toLower_separator (c : Char) (h : isSeparator c.toLower = true) :
    isSeparator c = true := by
  by_cases hu : c.toNat ≥ 65 ∧ c.toNat ≤ 90
  · exfalso
    have hlow : c.toLower = Char.ofNat (c.toNat + 32) := by
      unfold Char.toLower
      exact if_pos hu
    rw [hlow] at h
    obtain ⟨h1, h2⟩ := hu
    generalize c.toNat = n at h h1 h2
    interval_cases n <;> revert h <;> decide
  · have hlow : c.toLower = c := by
      unfold Char.toLower
      exact if_neg hu
    rw [hlow] at h
    exact h

/-- C9: `RefineImageName s` has as many characters as `s`; its i-th character
is a hyphen when the i-th character of `s` is one of `.`, `_`, `:`, `/`, and is
the lower-case form of the i-th character of `s` otherwise, so that separators
are replaced one for one, never collapsed and never trimmed; and
`RefineImageName "Ubuntu_20.04:LTS/x64" = "ubuntu-20-04-lts-x64"`. The rune
mapping `lower` of `strings.ToLower` is taken with two facts of the Unicode
case table: on ASCII it is the ASCII lower-casing, and it maps no character
that is not a separator onto a separator. -/
theorem C9_refineImageName_charwise (lower : Char → Char)
    (hascii : ∀ c : Char, c.toNat < 128 → lower c = c.toLower)
    (hsep : ∀ c : Char, isSeparator (lower c) = true → isSeparator c = true)
    (s : String) :
    (RefineImageName lower s).length = s.length ∧
    (∀ i : Nat, (RefineImageName lower s).data[i]? =
      (s.data[i]?).map (fun c => if isSeparator c then '-' else lower c)) ∧
    RefineImageName lower "Ubuntu_20.04:LTS/x64" = "ubuntu-20-04-lts-x64" := by
  have hfix : ∀ c : Char, isSeparator c = true → lower c = c := by
    intro c hc
    have hlt : c.toNat < 128 := by
      simp only [isSeparator, Bool.or_eq_true, decide_eq_true_eq] at hc
      rcases hc with ((h | h) | h) | h <;> subst h <;> decide
    rw [hascii c hlt]
    simp only [isSeparator, Bool.or_eq_true, decide_eq_true_eq] at hc
    rcases hc with ((h | h) | h) | h <;> subst h <;> decide
  have hdata : ∀ t : String, (RefineImageName lower t).data =
      t.data.map (fun c => if isSeparator c then '-' else lower c) := by
    intro t
    rw [RefineImageName_data]
    apply List.map_congr_left
    intro c _
    by_cases hc : isSeparator c = true
    · simp [hfix c hc, hc]
    · have hl : ¬ isSeparator (lower c) = true := fun hl => hc (hsep c hl)
      simp [hc, hl]
  refine ⟨?_, ?_, ?_⟩
  · show (RefineImageName lower s).data.length = s.data.length
    rw [hdata s, List.length_map]
  · intro i
    rw [hdata s, List.getElem?_map]
  · apply String.ext
    rw [hdata]
    have hlow : ∀ c ∈ "Ubuntu_20.04:LTS/x64".data, lower c = c.toLower := by
      intro c hc
      apply hascii
      revert c
      decide
    have hmap : "Ubuntu_20.04:LTS/x64".data.map
          (fun c => if isSeparator c then '-' else lower c) =
        "Ubuntu_20.04:LTS/x64".data.map
          (fun c => if isSeparator c then '-' else c.toLower) := by
      apply List.map_congr_left
      intro c hc
      rw [hlow c hc]
    rw [hmap]
    decide

/-- Witness of C9 with the ASCII lower-casing `Char.toLower`. -/
theorem C9_refineImageName_charwise_witness :
    (RefineImageName Char.toLower "A..b_").length = "A..b_".length ∧
    RefineImageName Char.toLower "Ubuntu_20.04:LTS/x64" = "ubuntu-20-04-lts-x64" :=
  ⟨(C9_refineImageName_charwise Char.toLower (fun _ _ => rfl)
      (fun c h => toLower_separator c h) "A..b_").1,
   (C9_refineImageName_charwise Char.toLower (fun _ _ => rfl)
      (fun c h => toLower_separator c h) "").2.2⟩

/-! ## The merge of `UpdateImage` -/

theorem string_length_pos_of_ne (s : String) (h : s ≠ "") : s.length > 0 := by
  rcases Nat.eq_zero_or_pos s.length with h0 | h0
  · exact absurd (string_eq_empty_of_length s h0) h
  · exact h0

theorem decode_omitempty_Namespace (t : TbImageInfo) (v : String) :
    jsonUnmarshal (omitemptyStr "namespace" v) t =
      { t with Namespace := if v = "" then t.Namespace else v } := by
  by_cases h : v = "" <;> simp [jsonUnmarshal, omitemptyStr, jsonSetField, h]

theorem decode_omitempty_Id (t : TbImageInfo) (v : String) :
    jsonUnmarshal (omitemptyStr "id" v) t =
      { t with Id := if v = "" then t.Id else v } := by
  by_cases h : v = "" <;> simp [jsonUnmarshal, omitemptyStr, jsonSetField, h]

theorem decode_omitempty_Name (t : TbImageInfo) (v : String) :
    jsonUnmarshal (omitemptyStr "name" v) t =
      { t with Name := if v = "" then t.Name else v } := by
  by_cases h : v = "" <;> simp [jsonUnmarshal, omitemptyStr, jsonSetField, h]

theorem decode_omitempty_ConnectionName (t : TbImageInfo) (v : String) :
    jsonUnmarshal (omitemptyStr "connectionName" v) t =
      { t with ConnectionName := if v = "" then t.ConnectionName else v } := by
  by_cases h : v = "" <;> simp [jsonUnmarshal, omitemptyStr, jsonSetField, h]

theorem decode_omitempty_CspImageId (t : TbImageInfo) (v : String) :
    jsonUnmarshal (omitemptyStr "cspImageId" v) t =
      { t with CspImageId := if v = "" then t.CspImageId else v } := by
  by_cases h : v = "" <;> simp [jsonUnmarshal, omitemptyStr, jsonSetField, h]

theorem decode_omitempty_CspImageName (t : TbImageInfo) (v : String) :
    jsonUnmarshal (omitemptyStr "cspImageName" v) t =
      { t with CspImageName := if v = "" then t.CspImageName else v } := by
  by_cases h : v = "" <;> simp [jsonUnmarshal, omitemptyStr, jsonSetField, h]

theorem decode_omitempty_Description (t : TbImageInfo) (v : String) :
    jsonUnmarshal (omitemptyStr "description" v) t =
      { t with Description := if v = "" then t.Description else v } := by
  by_cases h : v = "" <;> simp [jsonUnmarshal, omitemptyStr, jsonSetField, h]

theorem decode_omitempty_CreationDate (t : TbImageInfo) (v : String) :
    jsonUnmarshal (omitemptyStr "creationDate" v) t =
      { t with CreationDate := if v = "" then t.CreationDate else v } := by
  by_cases h : v = "" <;> simp [jsonUnmarshal, omitemptyStr, jsonSetField, h]

theorem decode_omitempty_GuestOS (t : TbImageInfo) (v : String) :
    jsonUnmarshal (omitemptyStr "guestOS" v) t =
      { t with GuestOS := if v = "" then t.GuestOS else v } := by
  by_cases h : v = "" <;> simp [jsonUnmarshal, omitemptyStr, jsonSetField, h]

theorem decode_omitempty_Status (t : TbImageInfo) (v : String) :
    jsonUnmarshal (omitemptyStr "status" v) t =
      { t with Status := if v = "" then t.Status else v } := by
  by_cases h : v = "" <;> simp [jsonUnmarshal, omitemptyStr, jsonSetField, h]

theorem decode_omitempty_KeyValueList (t : TbImageInfo) (v : List KeyValue) :
    jsonUnmarshal (omitemptyKvs "keyValueList" v) t =
      { t with KeyValueList := if v = [] then t.KeyValueList else v } := by
  by_cases h : v = [] <;> simp [jsonUnmarshal, omitemptyKvs, jsonSetField, h]

theorem decode_omitempty_AssociatedObjectList (t : TbImageInfo) (v : List String) :
    jsonUnmarshal (omitemptyStrs "associatedObjectList" v) t =
      { t with AssociatedObjectList := if v = [] then t.AssociatedObjectList else v } := by
  by_cases h : v = [] <;> simp [jsonUnmarshal, omitemptyStrs, jsonSetField, h]

theorem decode_omitempty_IsAutoGenerated (t : TbImageInfo) (v : Bool) :
    jsonUnmarshal (omitemptyBool "isAutoGenerated" v) t =
      { t with IsAutoGenerated := if v = false then t.IsAutoGenerated else v } := by
  by_cases h : v = false <;> simp [jsonUnmarshal, omitemptyBool, jsonSetField, h]

theorem jsonUnmarshal_append (a b : JsonObject) (t : TbImageInfo) :
    jsonUnmarshal (a ++ b) t = jsonUnmarshal b (jsonUnmarshal a t) := by
  simp [jsonUnmarshal, List.foldl_append]

theorem jsonUnmarshal_jsonMarshal (e p : TbImageInfo) :
    jsonUnmarshal (jsonMarshal p) e = overwriteNonDefault e p := by
  unfold jsonMarshal
  simp only [jsonUnmarshal_append, decode_omitempty_Namespace, decode_omitempty_Id,
    decode_omitempty_Name, decode_omitempty_ConnectionName, decode_omitempty_CspImageId,
    decode_omitempty_CspImageName, decode_omitempty_Description, decode_omitempty_CreationDate,
    decode_omitempty_GuestOS, decode_omitempty_Status, decode_omitempty_KeyValueList,
    decode_omitempty_AssociatedObjectList, decode_omitempty_IsAutoGenerated]
  rfl

theorem overwriteNonDefault_zero (t : TbImageInfo) :
    overwriteNonDefault TbImageInfo.zero t = t := by
  cases t
  simp only [overwriteNonDefault, TbImageInfo.zero, TbImageInfo.mk.injEq]
  refine ⟨?_, ?_, ?_, ?_, ?_, ?_, ?_, ?_, ?_, ?_, ?_, ?_, ?_⟩ <;> split <;> simp_all

/-- Decoding what `json.Marshal` wrote into a fresh record gives the record back. -/
theorem jsonUnmarshal_jsonMarshal_zero (t : TbImageInfo) :
    jsonUnmarshal (jsonMarshal t) TbImageInfo.zero = t := by
  rw [jsonUnmarshal_jsonMarshal, overwriteNonDefault_zero]

/-! ## Lemmas on the stores -/

theorem CheckResource_of_get (env : Env) (s : Store) (nsId resourceType resourceId : String)
    (hget : env.cbStoreGetErr (GenResourceKey nsId resourceType resourceId) = none) :
    CheckResource env s nsId resourceType resourceId =
      ((kvGet s.kv (GenResourceKey nsId resourceType resourceId)).isSome, none) := by
  unfold CheckResource CBStoreGet
  rw [hget]
  cases kvGet s.kv (GenResourceKey nsId resourceType resourceId) <;> rfl

theorem GetResource_of_get (env : Env) (s : Store) (nsId resourceType resourceId : String)
    (v : JsonObject)
    (hget : env.cbStoreGetErr (GenResourceKey nsId resourceType resourceId) = none)
    (hv : kvGet s.kv (GenResourceKey nsId resourceType resourceId) = some v) :
    GetResource env s nsId resourceType resourceId =
      (some (jsonUnmarshal v TbImageInfo.zero), none) := by
  unfold GetResource CBStoreGet
  rw [hget, hv]

theorem CBStorePut_of_ok (env : Env) (s : Store) (key : ResourceKey) (val : JsonObject)
    (hput : env.cbStorePutErr key val = none) :
    CBStorePut env s key val = (none, { s with kv := kvPut s.kv key val }) := by
  unfold CBStorePut
  rw [hput]

theorem CBStorePut_of_err (env : Env) (s : Store) (key : ResourceKey) (val : JsonObject)
    (err : String) (hput : env.cbStorePutErr key val = some err) :
    CBStorePut env s key val = (some err, s) := by
  unfold CBStorePut
  rw [hput]

theorem kvGet_kvPut_self (kv : List (ResourceKey × JsonObject)) (key : ResourceKey)
    (val : JsonObject) : kvGet (kvPut kv key val) key = some val := by
  induction kv with
  | nil => simp [kvPut, kvGet]
  | cons hd tl ih =>
    obtain ⟨k, v⟩ := hd
    by_cases h : k = key
    · simp [kvPut, kvGet, h]
    · simp [kvPut, kvGet, h, ih]

theorem kvGet_kvPut_other (kv : List (ResourceKey × JsonObject)) (key key2 : ResourceKey)
    (val : JsonObject) (hne : key ≠ key2) : kvGet (kvPut kv key val) key2 = kvGet kv key2 := by
  induction kv with
  | nil => simp [kvPut, kvGet, hne]
  | cons hd tl ih =>
    obtain ⟨k, v⟩ := hd
    by_cases h : k = key
    · subst h
      simp [kvPut, kvGet, hne]
    · by_cases h2 : k = key2
      · subst h2
        simp [kvPut, kvGet, h]
      · simp [kvPut, kvGet, h, h2, ih]

theorem mem_kvPut (kv : List (ResourceKey × JsonObject)) (key : ResourceKey)
    (val : JsonObject) (x : ResourceKey × JsonObject) (hx : x ∈ kvPut kv key val) :
    x = (key, val) ∨ x ∈ kv := by
  induction kv with
  | nil =>
    simp only [kvPut, List.mem_singleton] at hx
    exact Or.inl hx
  | cons hd tl ih =>
    obtain ⟨k, v⟩ := hd
    by_cases h : k = key
    · simp only [kvPut, h, if_true, List.mem_cons] at hx
      rcases hx with hx | hx
      · exact Or.inl hx
      · exact Or.inr (List.mem_cons_of_mem _ hx)
    · simp only [kvPut, h, if_false, List.mem_cons] at hx
      rcases hx with hx | hx
      · exact Or.inr (by rw [hx]; exact List.mem_cons_self _ _)
      · rcases ih hx with h1 | h1
        · exact Or.inl h1
        · exact Or.inr (List.mem_cons_of_mem _ h1)

/-! ## `UpdateImage` -/

theorem UpdateImage_success (env : Env) (s : Store) (nsId imageId : String)
    (p : TbImageInfo) (v : JsonObject)
    (hcheck : env.CheckString nsId = none) (hns : p.Namespace = "") (hid : p.Id = "")
    (hget : env.cbStoreGetErr (GenResourceKey nsId StrImage imageId) = none)
    (hv : kvGet s.kv (GenResourceKey nsId StrImage imageId) = some v)
    (hput : env.cbStorePutErr
      (GenResourceKey nsId StrImage (jsonUnmarshal (jsonMarshal p) (jsonUnmarshal v TbImageInfo.zero)).Id)
      (jsonMarshal (jsonUnmarshal (jsonMarshal p) (jsonUnmarshal v TbImageInfo.zero))) = none) :
    (UpdateImage env s nsId imageId p).1 =
      (jsonUnmarshal (jsonMarshal p) (jsonUnmarshal v TbImageInfo.zero), none) := by
  unfold UpdateImage
  simp only [hcheck, hns, hid, CheckResource_of_get env s nsId StrImage imageId hget, hv,
    GetResource_of_get env s nsId StrImage imageId v hget hv, CopySrcToDest,
    CBStorePut_of_ok env s _ _ hput]
  simp

/-- C2: the record that `UpdateImage` computes from the stored record `e` and
the update `p` (lines 619 to 621: `p` serialised with `omitempty` and decoded
over a copy of `e`) has, field by field, the value of `p` where that value is
non-default (non-empty string, non-empty list, true) and the value of `e`
where it is default; for `p` with empty `Namespace` and `Id` these two fields
are those of `e`, and `UpdateImage` returns this record when its checks and
its write succeed; merging an update with only `Description = "new"` into a
record with `Status = "available"`, `Description = "old"` gives
`Status = "available"`, `Description = "new"`. -/
theorem C2_update_merge_selectivity (e p : TbImageInfo)
    (hns : p.Namespace = "") (hid : p.Id = "") :
    jsonUnmarshal (jsonMarshal p) e = overwriteNonDefault e p ∧
    (jsonUnmarshal (jsonMarshal p) e).Namespace = e.Namespace ∧
    (jsonUnmarshal (jsonMarshal p) e).Id = e.Id ∧
    (∀ (env : Env) (s : Store) (nsId imageId : String),
      env.CheckString nsId = none →
      env.cbStoreGetErr (GenResourceKey nsId StrImage imageId) = none →
      kvGet s.kv (GenResourceKey nsId StrImage imageId) = some (jsonMarshal e) →
      env.cbStorePutErr (GenResourceKey nsId StrImage e.Id)
        (jsonMarshal (overwriteNonDefault e p)) = none →
      (UpdateImage env s nsId imageId p).1 = (overwriteNonDefault e p, none)) ∧
    jsonUnmarshal (jsonMarshal { TbImageInfo.zero with Description := "new" })
        { TbImageInfo.zero with Status := "available", Description := "old" } =
      { TbImageInfo.zero with Status := "available", Description := "new" } := by
  have hmerge := jsonUnmarshal_jsonMarshal e p
  have hN : (overwriteNonDefault e p).Namespace = e.Namespace := by
    simp [overwriteNonDefault, hns]
  have hI : (overwriteNonDefault e p).Id = e.Id := by
    simp [overwriteNonDefault, hid]
  refine ⟨hmerge, ?_, ?_, ?_, ?_⟩
  · rw [hmerge, hN]
  · rw [hmerge, hI]
  · intro env s nsId imageId hcheck hget hv hput
    have h := UpdateImage_success env s nsId imageId p (jsonMarshal e) hcheck hns hid hget hv
    rw [jsonUnmarshal_jsonMarshal_zero, hmerge, hI] at h
    exact h hput
  · rw [jsonUnmarshal_jsonMarshal]
    decide

/-- Witness of C2 at the record and the update of the example. -/
theorem C2_update_merge_selectivity_witness :
    jsonUnmarshal (jsonMarshal { TbImageInfo.zero with Description := "new" })
        { TbImageInfo.zero with Status := "available", Description := "old" } =
      overwriteNonDefault { TbImageInfo.zero with Status := "available", Description := "old" }
        { TbImageInfo.zero with Description := "new" } :=
  (C2_update_merge_selectivity { TbImageInfo.zero with Status := "available", Description := "old" }
    { TbImageInfo.zero with Description := "new" } rfl rfl).1

/-- C3: when the update sets `Namespace` or `Id`, `UpdateImage` returns an
error together with the empty record, and the key-value store and the
relational index are what they were before the call. -/
theorem C3_update_rejects_immutable_fields (env : Env) (s : Store) (nsId imageId : String)
    (p : TbImageInfo) (h : p.Namespace ≠ "" ∨ p.Id ≠ "") :
    (UpdateImage env s nsId imageId p).1.2 ≠ none ∧
    (UpdateImage env s nsId imageId p).1.1 = TbImageInfo.zero ∧
    (UpdateImage env s nsId imageId p).2 = s := by
  unfold UpdateImage
  cases hc : env.CheckString nsId with
  | some err => simp
  | none =>
    by_cases hn : p.Namespace = ""
    · have hi : p.Id ≠ "" := by
        rcases h with h | h
        · exact absurd hn h
        · exact h
      have hpos := string_length_pos_of_ne p.Id hi
      simp [hn, hpos]
    · have hpos := string_length_pos_of_ne p.Namespace hn
      simp [hpos]

/-- Witness of C3: an update that sets `Id` on a store holding one image. -/
theorem C3_update_rejects_immutable_fields_witness :
    (UpdateImage sampleEnv sampleStore "ns1" "img" { TbImageInfo.zero with Id := "img2" }).1.2
      ≠ none ∧
    (UpdateImage sampleEnv sampleStore "ns1" "img" { TbImageInfo.zero with Id := "img2" }).1.1
      = TbImageInfo.zero ∧
    (UpdateImage sampleEnv sampleStore "ns1" "img" { TbImageInfo.zero with Id := "img2" }).2
      = sampleStore :=
  C3_update_rejects_immutable_fields sampleEnv sampleStore "ns1" "img"
    { TbImageInfo.zero with Id := "img2" } (Or.inr (by decide))

/-! ## Registration of an image that exists -/

theorem RegisterImageWithInfo_eval (env : Env) (s : Store) (nsId : String)
    (content : TbImageInfo)
    (hns : env.CheckString nsId = none) (hname : env.CheckString content.Name = none)
    (hget : env.cbStoreGetErr (GenResourceKey nsId StrImage content.Name) = none) :
    RegisterImageWithInfo env s nsId content =
      if (kvGet s.kv (GenResourceKey nsId StrImage content.Name)).isSome = true then
        ((TbImageInfo.zero, some ("The image " ++ content.Name ++ " already exists.")), s)
      else
        match env.cbStorePutErr (GenResourceKey nsId StrImage content.Name)
            (jsonMarshal (registeredInfo nsId content)) with
        | some err => ((registeredInfo nsId content, some err), s)
        | none =>
          ((registeredInfo nsId content, none),
            ORMInsert env
              { s with kv := (kvPut s.kv (GenResourceKey nsId StrImage content.Name)
                  (jsonMarshal (registeredInfo nsId content))) }
              (registeredInfo nsId content)) := by
  unfold RegisterImageWithInfo
  simp only [hns, hname, CheckResource_of_get env s nsId StrImage content.Name hget]
  cases hkv : kvGet s.kv (GenResourceKey nsId StrImage content.Name) with
  | some v => simp
  | none =>
    cases hput : env.cbStorePutErr (GenResourceKey nsId StrImage content.Name)
        (jsonMarshal (registeredInfo nsId content)) with
    | some err =>
      have h := CBStorePut_of_err env s _ _ err hput
      simp only [registeredInfo] at h
      simp [h, registeredInfo]
    | none =>
      have h := CBStorePut_of_ok env s _ _ hput
      simp only [registeredInfo] at h
      simp [h, registeredInfo]

theorem CheckResource_of_get_err (env : Env) (s : Store) (nsId resourceType resourceId : String)
    (err : String)
    (hget : env.cbStoreGetErr (GenResourceKey nsId resourceType resourceId) = some err) :
    CheckResource env s nsId resourceType resourceId = (false, some err) := by
  unfold CheckResource CBStoreGet
  rw [hget]

theorem CheckResource_true (env : Env) (s : Store) (nsId resourceType resourceId : String)
    (h : (CheckResource env s nsId resourceType resourceId).1 = true) :
    CheckResource env s nsId resourceType resourceId = (true, none) := by
  cases hget : env.cbStoreGetErr (GenResourceKey nsId resourceType resourceId) with
  | some err =>
    rw [CheckResource_of_get_err env s nsId resourceType resourceId err hget] at h
    simp at h
  | none =>
    rw [CheckResource_of_get env s nsId resourceType resourceId hget] at h ⊢
    simp only at h
    rw [h]

/-- Every path of `RegisterImageWithInfo` that returns an error leaves both stores as they were. -/
theorem RegisterImageWithInfo_err_unchanged (env : Env) (s : Store) (nsId : String)
    (content : TbImageInfo) (h : (RegisterImageWithInfo env s nsId content).1.2 ≠ none) :
    (RegisterImageWithInfo env s nsId content).2 = s := by
  cases hns : env.CheckString nsId with
  | some e => simp [RegisterImageWithInfo, hns]
  | none =>
  cases hname : env.CheckString content.Name with
  | some e => simp [RegisterImageWithInfo, hns, hname]
  | none =>
  cases hget : env.cbStoreGetErr (GenResourceKey nsId StrImage content.Name) with
  | some e =>
    simp [RegisterImageWithInfo, hns, hname,
      CheckResource_of_get_err env s nsId StrImage content.Name e hget]
  | none =>
    rw [RegisterImageWithInfo_eval env s nsId content hns hname hget] at h ⊢
    by_cases hkv : (kvGet s.kv (GenResourceKey nsId StrImage content.Name)).isSome = true
    · simp [hkv]
    · cases hput : env.cbStorePutErr (GenResourceKey nsId StrImage content.Name)
          (jsonMarshal (registeredInfo nsId content)) with
      | some err => simp [hkv, hput]
      | none => simp [hkv, hput] at h

/-- A call of `RegisterImageWithInfo` that returns no error passed both naming
checks, found no entry under the key, and wrote the record under it. -/
theorem RegisterImageWithInfo_success_inv (env : Env) (s : Store) (nsId : String)
    (content : TbImageInfo) (h : (RegisterImageWithInfo env s nsId content).1.2 = none) :
    env.CheckString nsId = none ∧ env.CheckString content.Name = none ∧
    env.cbStoreGetErr (GenResourceKey nsId StrImage content.Name) = none ∧
    kvGet s.kv (GenResourceKey nsId StrImage content.Name) = none ∧
    RegisterImageWithInfo env s nsId content =
      ((registeredInfo nsId content, none),
        ORMInsert env
          { s with kv := (kvPut s.kv (GenResourceKey nsId StrImage content.Name)
              (jsonMarshal (registeredInfo nsId content))) }
          (registeredInfo nsId content)) := by
  cases hns : env.CheckString nsId with
  | some e => simp [RegisterImageWithInfo, hns] at h
  | none =>
  cases hname : env.CheckString content.Name with
  | some e => simp [RegisterImageWithInfo, hns, hname] at h
  | none =>
  cases hget : env.cbStoreGetErr (GenResourceKey nsId StrImage content.Name) with
  | some e =>
    simp [RegisterImageWithInfo, hns, hname,
      CheckResource_of_get_err env s nsId StrImage content.Name e hget] at h
  | none =>
    rw [RegisterImageWithInfo_eval env s nsId content hns hname hget] at h ⊢
    cases hkv : kvGet s.kv (GenResourceKey nsId StrImage content.Name) with
    | some v => simp [hkv] at h
    | none =>
      cases hput : env.cbStorePutErr (GenResourceKey nsId StrImage content.Name)
          (jsonMarshal (registeredInfo nsId content)) with
      | some err => simp [hkv, hput] at h
      | none => simp

/-- Every path of `RegisterImageWithId` that returns an error leaves both stores as they were. -/
theorem RegisterImageWithId_err_unchanged (env : Env) (s : Store) (nsId : String)
    (u : TbImageReq) (h : (RegisterImageWithId env s nsId u).1.2 ≠ none) :
    (RegisterImageWithId env s nsId u).2 = s := by
  cases hns : env.CheckString nsId with
  | some e => simp [RegisterImageWithId, hns]
  | none =>
  cases hval : validateStruct env u with
  | some e => simp [RegisterImageWithId, hns, hval]
  | none =>
  cases hcr : CheckResource env s nsId StrImage u.Name with
  | mk check cerr =>
  cases check with
  | true => simp [RegisterImageWithId, hns, hval, hcr]
  | false =>
  cases cerr with
  | some e => simp [RegisterImageWithId, hns, hval, hcr]
  | none =>
  cases hl : LookupImage env u.ConnectionName u.CspImageId with
  | mk res lerr =>
  cases lerr with
  | some e => simp [RegisterImageWithId, hns, hval, hcr, hl]
  | none =>
  cases hc : ConvertSpiderImageToTumblebugImage res with
  | mk content verr =>
  cases verr with
  | some e => simp [RegisterImageWithId, hns, hval, hcr, hl, hc]
  | none =>
  cases hput : env.cbStorePutErr (GenResourceKey nsId StrImage u.Name)
      (jsonMarshal (registeredFromId nsId u content)) with
  | some err =>
    have hp := CBStorePut_of_err env s _ _ err hput
    simp only [registeredFromId] at hp
    simp [RegisterImageWithId, hns, hval, hcr, hl, hc, hp]
  | none =>
    have hp := CBStorePut_of_ok env s _ _ hput
    simp only [registeredFromId] at hp
    simp [RegisterImageWithId, hns, hval, hcr, hl, hc, hp] at h

/-- A call of `RegisterImageWithId` that returns no error passed the naming
check and the validation, found no entry under the key, and wrote under it a
record converted from a provider record. -/
theorem RegisterImageWithId_success_inv (env : Env) (s : Store) (nsId : String)
    (u : TbImageReq) (h : (RegisterImageWithId env s nsId u).1.2 = none) :
    env.CheckString nsId = none ∧ validateStruct env u = none ∧
    CheckResource env s nsId StrImage u.Name = (false, none) ∧
    ∃ res content, ConvertSpiderImageToTumblebugImage res = (content, none) ∧
      RegisterImageWithId env s nsId u =
        ((registeredFromId nsId u content, none),
          ORMInsert env
            { s with kv := (kvPut s.kv (GenResourceKey nsId StrImage u.Name)
                (jsonMarshal (registeredFromId nsId u content))) }
            (registeredFromId nsId u content)) := by
  cases hns : env.CheckString nsId with
  | some e => simp [RegisterImageWithId, hns] at h
  | none =>
  cases hval : validateStruct env u with
  | some e => simp [RegisterImageWithId, hns, hval] at h
  | none =>
  cases hcr : CheckResource env s nsId StrImage u.Name with
  | mk check cerr =>
  cases check with
  | true => simp [RegisterImageWithId, hns, hval, hcr] at h
  | false =>
  cases cerr with
  | some e => simp [RegisterImageWithId, hns, hval, hcr] at h
  | none =>
  cases hl : LookupImage env u.ConnectionName u.CspImageId with
  | mk res lerr =>
  cases lerr with
  | some e => simp [RegisterImageWithId, hns, hval, hcr, hl] at h
  | none =>
  cases hc : ConvertSpiderImageToTumblebugImage res with
  | mk content verr =>
  cases verr with
  | some e => simp [RegisterImageWithId, hns, hval, hcr, hl, hc] at h
  | none =>
  cases hput : env.cbStorePutErr (GenResourceKey nsId StrImage u.Name)
      (jsonMarshal (registeredFromId nsId u content)) with
  | some err =>
    have hp := CBStorePut_of_err env s _ _ err hput
    simp only [registeredFromId] at hp
    simp [RegisterImageWithId, hns, hval, hcr, hl, hc, hp] at h
  | none =>
    have hp := CBStorePut_of_ok env s _ _ hput
    simp only [registeredFromId] at hp
    refine ⟨rfl, rfl, rfl, res, content, hc, ?_⟩
    simp [RegisterImageWithId, hns, hval, hcr, hl, hc, hp, registeredFromId]

theorem CheckResource_ok_get (env : Env) (s : Store) (nsId resourceType resourceId : String)
    (b : Bool) (h : CheckResource env s nsId resourceType resourceId = (b, none)) :
    env.cbStoreGetErr (GenResourceKey nsId resourceType resourceId) = none := by
  cases hget : env.cbStoreGetErr (GenResourceKey nsId resourceType resourceId) with
  | some err =>
    rw [CheckResource_of_get_err env s nsId resourceType resourceId err hget] at h
    simp at h
  | none => rfl

theorem RegisterImageWithId_exists (env : Env) (s : Store) (nsId : String) (u : TbImageReq)
    (hns : env.CheckString nsId = none) (hval : validateStruct env u = none)
    (hex : (CheckResource env s nsId StrImage u.Name).1 = true) :
    RegisterImageWithId env s nsId u =
      ((TbImageInfo.zero, some ("The image " ++ u.Name ++ " already exists.")), s) := by
  have hcr := CheckResource_true env s nsId StrImage u.Name hex
  simp [RegisterImageWithId, hns, hval, hcr]

theorem RegisterImageWithInfo_exists (env : Env) (s : Store) (nsId : String)
    (content : TbImageInfo)
    (hns : env.CheckString nsId = none) (hname : env.CheckString content.Name = none)
    (hex : (CheckResource env s nsId StrImage content.Name).1 = true) :
    RegisterImageWithInfo env s nsId content =
      ((TbImageInfo.zero, some ("The image " ++ content.Name ++ " already exists.")), s) := by
  have hcr := CheckResource_true env s nsId StrImage content.Name hex
  simp [RegisterImageWithInfo, hns, hname, hcr]

theorem RegisterImageWithInfo_exists_err (env : Env) (s : Store) (nsId : String)
    (content : TbImageInfo)
    (hex : (CheckResource env s nsId StrImage content.Name).1 = true) :
    (RegisterImageWithInfo env s nsId content).1.2 ≠ none := by
  have hcr := CheckResource_true env s nsId StrImage content.Name hex
  cases hns : env.CheckString nsId with
  | some e => simp [RegisterImageWithInfo, hns]
  | none =>
    cases hname : env.CheckString content.Name with
    | some e => simp [RegisterImageWithInfo, hns, hname]
    | none => simp [RegisterImageWithInfo, hns, hname, hcr]

theorem RegisterImageWithId_exists_err (env : Env) (s : Store) (nsId : String)
    (u : TbImageReq) (hex : (CheckResource env s nsId StrImage u.Name).1 = true) :
    (RegisterImageWithId env s nsId u).1.2 ≠ none := by
  have hcr := CheckResource_true env s nsId StrImage u.Name hex
  cases hns : env.CheckString nsId with
  | some e => simp [RegisterImageWithId, hns]
  | none =>
    cases hval : validateStruct env u with
    | some e => simp [RegisterImageWithId, hns, hval]
    | none => simp [RegisterImageWithId, hns, hval, hcr]

theorem RegisterImageWithInfo_ns_err (env : Env) (s : Store) (nsId : String)
    (content : TbImageInfo) (e : String) (hns : env.CheckString nsId = some e) :
    RegisterImageWithInfo env s nsId content = ((TbImageInfo.zero, some e), s) := by
  simp [RegisterImageWithInfo, hns]

theorem RegisterImageWithInfo_name_err (env : Env) (s : Store) (nsId : String)
    (content : TbImageInfo) (e : String) (hns : env.CheckString nsId = none)
    (hname : env.CheckString content.Name = some e) :
    RegisterImageWithInfo env s nsId content = ((TbImageInfo.zero, some e), s) := by
  simp [RegisterImageWithInfo, hns, hname]

theorem RegisterImageWithId_ns_err (env : Env) (s : Store) (nsId : String)
    (u : TbImageReq) (e : String) (hns : env.CheckString nsId = some e) :
    RegisterImageWithId env s nsId u = ((TbImageInfo.zero, some e), s) := by
  simp [RegisterImageWithId, hns]

theorem RegisterImageWithId_validation_err (env : Env) (s : Store) (nsId : String)
    (u : TbImageReq) (e : String) (hns : env.CheckString nsId = none)
    (hval : validateStruct env u = some e) :
    RegisterImageWithId env s nsId u = ((TbImageInfo.zero, some e), s) := by
  simp [RegisterImageWithId, hns, hval]

theorem validateStruct_missing_connectionName (env : Env) (u : TbImageReq)
    (h : u.ConnectionName = "") : validateStruct env u ≠ none := by
  simp [validateStruct, validateRequired, h]

/-- C1 as stated fails for `RegisterImageWithId`: the image "img" exists in
namespace "ns1" (the existence check returns true), and a request named "img"
whose `ConnectionName` and `CspImageId` are empty is turned down by the
validation that precedes the existence check: the error returned is the one
of `validate.Struct`, and it is not "already exists". -/
theorem C1_counterexample_validation_first :
    (CheckResource sampleEnv sampleStore "ns1" StrImage "img").1 = true ∧
    (RegisterImageWithId sampleEnv sampleStore "ns1"
      { Name := "img", ConnectionName := "", CspImageId := "", Description := "" }).1.2 =
      validateStruct sampleEnv
        { Name := "img", ConnectionName := "", CspImageId := "", Description := "" } ∧
    (RegisterImageWithId sampleEnv sampleStore "ns1"
      { Name := "img", ConnectionName := "", CspImageId := "", Description := "" }).1.2 ≠
      none ∧
    (RegisterImageWithId sampleEnv sampleStore "ns1"
      { Name := "img", ConnectionName := "", CspImageId := "", Description := "" }).1.2 ≠
      some "The image img already exists." := by
  have hne := validateStruct_missing_connectionName sampleEnv
    { Name := "img", ConnectionName := "", CspImageId := "", Description := "" } rfl
  cases hval : validateStruct sampleEnv
      { Name := "img", ConnectionName := "", CspImageId := "", Description := "" } with
  | none => exact absurd hval hne
  | some e =>
    have hret := RegisterImageWithId_validation_err sampleEnv sampleStore "ns1"
      { Name := "img", ConnectionName := "", CspImageId := "", Description := "" } e rfl hval
    rw [hret]
    refine ⟨by decide, rfl, by simp, ?_⟩
    intro hsame
    have he : e = "The image img already exists." := by simpa using hsame
    rw [he] at hval
    revert hval
    simp [validateStruct, validateRequired, TbImageReqStructLevelValidation, sampleEnv,
      String.intercalate, String.intercalate.go]

/-- C1 (amended): when an image with id `n` exists in `nsId` (the existence
check returns true), `RegisterImageWithInfo` on a record named `n` and
`RegisterImageWithId` on a request named `n` return an error and leave the
key-value store and the relational index unchanged; the error is "already
exists" when the namespace passes the naming check and the record's name
passes it, respectively the request passes the validation. The checks that
precede the existence check return their own error, with the empty record
and the stores unchanged: both functions return the error of the naming
check of the namespace when it fails; when it passes, `RegisterImageWithInfo`
returns the error of the naming check of the name when that fails, and
`RegisterImageWithId` returns the error of `validate.Struct` when the request
fails the validation. After a registration that succeeded, the same
registration again fails with "already exists" and leaves both stores as the
first one left them. -/
theorem C1_register_existing_fails_unchanged (env : Env) (nsId n : String) :
    (∀ (s : Store) (content : TbImageInfo) (u : TbImageReq),
      content.Name = n → u.Name = n → (CheckResource env s nsId StrImage n).1 = true →
      ((RegisterImageWithInfo env s nsId content).1.2 ≠ none ∧
        (RegisterImageWithInfo env s nsId content).2 = s) ∧
      ((RegisterImageWithId env s nsId u).1.2 ≠ none ∧
        (RegisterImageWithId env s nsId u).2 = s) ∧
      (env.CheckString nsId = none → env.CheckString n = none →
        RegisterImageWithInfo env s nsId content =
          ((TbImageInfo.zero, some ("The image " ++ n ++ " already exists.")), s)) ∧
      (env.CheckString nsId = none → validateStruct env u = none →
        RegisterImageWithId env s nsId u =
          ((TbImageInfo.zero, some ("The image " ++ n ++ " already exists.")), s))) ∧
    (∀ (s : Store) (content : TbImageInfo) (u : TbImageReq) (e : String),
      content.Name = n → u.Name = n →
      (env.CheckString nsId = some e →
        RegisterImageWithInfo env s nsId content = ((TbImageInfo.zero, some e), s) ∧
        RegisterImageWithId env s nsId u = ((TbImageInfo.zero, some e), s)) ∧
      (env.CheckString nsId = none → env.CheckString n = some e →
        RegisterImageWithInfo env s nsId content = ((TbImageInfo.zero, some e), s)) ∧
      (env.CheckString nsId = none → validateStruct env u = some e →
        RegisterImageWithId env s nsId u = ((TbImageInfo.zero, some e), s))) ∧
    (∀ (s : Store) (content : TbImageInfo), content.Name = n →
      (RegisterImageWithInfo env s nsId content).1.2 = none →
      RegisterImageWithInfo env (RegisterImageWithInfo env s nsId content).2 nsId content =
        ((TbImageInfo.zero, some ("The image " ++ n ++ " already exists.")),
          (RegisterImageWithInfo env s nsId content).2)) ∧
    (∀ (s : Store) (u : TbImageReq), u.Name = n →
      (RegisterImageWithId env s nsId u).1.2 = none →
      RegisterImageWithId env (RegisterImageWithId env s nsId u).2 nsId u =
        ((TbImageInfo.zero, some ("The image " ++ n ++ " already exists.")),
          (RegisterImageWithId env s nsId u).2)) := by
  refine ⟨?_, ?_, ?_, ?_⟩
  · intro s content u hcn hun hex
    subst hcn
    have hexu : (CheckResource env s nsId StrImage u.Name).1 = true := by rw [hun]; exact hex
    refine ⟨⟨RegisterImageWithInfo_exists_err env s nsId content hex,
      RegisterImageWithInfo_err_unchanged env s nsId content
        (RegisterImageWithInfo_exists_err env s nsId content hex)⟩,
      ⟨RegisterImageWithId_exists_err env s nsId u hexu,
      RegisterImageWithId_err_unchanged env s nsId u
        (RegisterImageWithId_exists_err env s nsId u hexu)⟩, ?_, ?_⟩
    · intro hns hname
      exact RegisterImageWithInfo_exists env s nsId content hns hname hex
    · intro hns hval
      rw [← hun]
      exact RegisterImageWithId_exists env s nsId u hns hval hexu
  · intro s content u e hcn _
    subst hcn
    refine ⟨?_, ?_, ?_⟩
    · intro hns
      exact ⟨RegisterImageWithInfo_ns_err env s nsId content e hns,
        RegisterImageWithId_ns_err env s nsId u e hns⟩
    · intro hns hname
      exact RegisterImageWithInfo_name_err env s nsId content e hns hname
    · intro hns hval
      exact RegisterImageWithId_validation_err env s nsId u e hns hval
  · intro s content hcn hok
    subst hcn
    obtain ⟨hns, hname, hget, _, heq⟩ := RegisterImageWithInfo_success_inv env s nsId content hok
    apply RegisterImageWithInfo_exists env _ nsId content hns hname
    rw [CheckResource_of_get env _ nsId StrImage content.Name hget, heq]
    simp [ORMInsert, kvGet_kvPut_self]
  · intro s u hun hok
    subst hun
    obtain ⟨hns, hval, hcr, res, content, _, heq⟩ :=
      RegisterImageWithId_success_inv env s nsId u hok
    have hget := CheckResource_ok_get env s nsId StrImage u.Name false hcr
    apply RegisterImageWithId_exists env _ nsId u hns hval
    rw [CheckResource_of_get env _ nsId StrImage u.Name hget, heq]
    simp [ORMInsert, kvGet_kvPut_self]

/-- Witness of C1 (amended): a second registration of "img" in "ns1" through
either entry point; a registration repeated on the empty stores; a request
for "img" that fails the validation; and a namespace and a name that fail the
naming check. -/
theorem C1_register_existing_fails_unchanged_witness :
    RegisterImageWithInfo sampleEnv sampleStore "ns1" { TbImageInfo.zero with Name := "img" } =
      ((TbImageInfo.zero, some "The image img already exists."), sampleStore) ∧
    RegisterImageWithId sampleEnv sampleStore "ns1"
      { Name := "img", ConnectionName := "aws", CspImageId := "ami-0", Description := "" } =
      ((TbImageInfo.zero, some "The image img already exists."), sampleStore) ∧
    RegisterImageWithInfo sampleEnv
      (RegisterImageWithInfo sampleEnv emptyStore "ns1" { TbImageInfo.zero with Name := "img" }).2
      "ns1" { TbImageInfo.zero with Name := "img" } =
      ((TbImageInfo.zero, some "The image img already exists."),
        (RegisterImageWithInfo sampleEnv emptyStore "ns1"
          { TbImageInfo.zero with Name := "img" }).2) ∧
    (validateStruct sampleEnv
      { Name := "img", ConnectionName := "", CspImageId := "ami-0", Description := "" } ≠ none ∧
    RegisterImageWithId sampleEnv sampleStore "ns1"
      { Name := "img", ConnectionName := "", CspImageId := "ami-0", Description := "" } =
      ((TbImageInfo.zero, validateStruct sampleEnv
        { Name := "img", ConnectionName := "", CspImageId := "ami-0", Description := "" }),
        sampleStore)) ∧
    RegisterImageWithId emptyNameRejectingEnv sampleStore ""
      { Name := "img", ConnectionName := "aws", CspImageId := "ami-0", Description := "" } =
      ((TbImageInfo.zero, some "the name does not obey the naming convention"), sampleStore) ∧
    RegisterImageWithInfo emptyNameRejectingEnv sampleStore "ns1" TbImageInfo.zero =
      ((TbImageInfo.zero, some "the name does not obey the naming convention"), sampleStore) :=
  ⟨((C1_register_existing_fails_unchanged sampleEnv "ns1" "img").1 sampleStore
      { TbImageInfo.zero with Name := "img" }
      { Name := "img", ConnectionName := "aws", CspImageId := "ami-0", Description := "" }
      rfl rfl (by decide)).2.2.1 rfl rfl,
   ((C1_register_existing_fails_unchanged sampleEnv "ns1" "img").1 sampleStore
      { TbImageInfo.zero with Name := "img" }
      { Name := "img", ConnectionName := "aws", CspImageId := "ami-0", Description := "" }
      rfl rfl (by decide)).2.2.2 rfl (by decide),
   (C1_register_existing_fails_unchanged sampleEnv "ns1" "img").2.2.1 emptyStore
      { TbImageInfo.zero with Name := "img" } rfl (by decide),
   ⟨validateStruct_missing_connectionName sampleEnv _ rfl, by
      cases hval : validateStruct sampleEnv
          { Name := "img", ConnectionName := "", CspImageId := "ami-0", Description := "" } with
      | none => exact absurd hval (validateStruct_missing_connectionName sampleEnv _ rfl)
      | some e =>
        exact ((C1_register_existing_fails_unchanged sampleEnv "ns1" "img").2.1 sampleStore
          { TbImageInfo.zero with Name := "img" }
          { Name := "img", ConnectionName := "", CspImageId := "ami-0", Description := "" }
          e rfl rfl).2.2 rfl hval⟩,
   (((C1_register_existing_fails_unchanged emptyNameRejectingEnv "" "img").2.1 sampleStore
      { TbImageInfo.zero with Name := "img" }
      { Name := "img", ConnectionName := "aws", CspImageId := "ami-0", Description := "" }
      _ rfl rfl).1 rfl).2,
   ((C1_register_existing_fails_unchanged emptyNameRejectingEnv "ns1" "").2.1 sampleStore
      TbImageInfo.zero
      { Name := "", ConnectionName := "aws", CspImageId := "ami-0", Description := "" }
      _ rfl rfl).2.1 rfl rfl⟩

/-! ## Registration followed by a fetch -/

theorem RegisterImageWithInfo_new (env : Env) (s : Store) (nsId : String)
    (content : TbImageInfo)
    (hns : env.CheckString nsId = none) (hname : env.CheckString content.Name = none)
    (hnew : CheckResource env s nsId StrImage content.Name = (false, none))
    (hput : env.cbStorePutErr (GenResourceKey nsId StrImage content.Name)
      (jsonMarshal (registeredInfo nsId content)) = none) :
    RegisterImageWithInfo env s nsId content =
      ((registeredInfo nsId content, none),
        ORMInsert env
          { s with kv := (kvPut s.kv (GenResourceKey nsId StrImage content.Name)
              (jsonMarshal (registeredInfo nsId content))) }
          (registeredInfo nsId content)) := by
  have hget := CheckResource_ok_get env s nsId StrImage content.Name false hnew
  have hkv : (kvGet s.kv (GenResourceKey nsId StrImage content.Name)).isSome = false := by
    rw [CheckResource_of_get env s nsId StrImage content.Name hget] at hnew
    exact congrArg Prod.fst hnew
  rw [RegisterImageWithInfo_eval env s nsId content hns hname hget]
  simp [hkv, hput]

/-- C6: for a namespace and a record name that pass the naming check, the name
not yet registered in the namespace, and a key-value write that succeeds,
`RegisterImageWithInfo` returns without error a record with `Name = n`,
`Id = n` and `Namespace = nsId`, and fetching the image by `(nsId, n)` from
the key-value store afterwards returns that same record. -/
theorem C6_register_then_fetch_roundtrip (env : Env) (s : Store) (nsId : String)
    (content : TbImageInfo)
    (hns : env.CheckString nsId = none) (hname : env.CheckString content.Name = none)
    (hnew : CheckResource env s nsId StrImage content.Name = (false, none))
    (hput : env.cbStorePutErr (GenResourceKey nsId StrImage content.Name)
      (jsonMarshal (registeredInfo nsId content)) = none) :
    (RegisterImageWithInfo env s nsId content).1.2 = none ∧
    (RegisterImageWithInfo env s nsId content).1.1.Name = content.Name ∧
    (RegisterImageWithInfo env s nsId content).1.1.Id = content.Name ∧
    (RegisterImageWithInfo env s nsId content).1.1.Namespace = nsId ∧
    GetResource env (RegisterImageWithInfo env s nsId content).2 nsId StrImage content.Name =
      (some (RegisterImageWithInfo env s nsId content).1.1, none) := by
  have heq := RegisterImageWithInfo_new env s nsId content hns hname hnew hput
  have hget := CheckResource_ok_get env s nsId StrImage content.Name false hnew
  rw [heq]
  refine ⟨rfl, rfl, rfl, rfl, ?_⟩
  rw [GetResource_of_get env _ nsId StrImage content.Name
    (jsonMarshal (registeredInfo nsId content)) hget (by simp [ORMInsert, kvGet_kvPut_self])]
  rw [jsonUnmarshal_jsonMarshal_zero]

/-- Witness of C6: the record named "tb-unit-test" registered in "ns1" on the empty stores. -/
theorem C6_register_then_fetch_roundtrip_witness :
    (RegisterImageWithInfo sampleEnv emptyStore "ns1"
      { TbImageInfo.zero with Name := "tb-unit-test" }).1.1.Id = "tb-unit-test" ∧
    (RegisterImageWithInfo sampleEnv emptyStore "ns1"
      { TbImageInfo.zero with Name := "tb-unit-test" }).1.1.Namespace = "ns1" ∧
    GetResource sampleEnv
      (RegisterImageWithInfo sampleEnv emptyStore "ns1"
        { TbImageInfo.zero with Name := "tb-unit-test" }).2 "ns1" StrImage "tb-unit-test" =
      (some (RegisterImageWithInfo sampleEnv emptyStore "ns1"
        { TbImageInfo.zero with Name := "tb-unit-test" }).1.1, none) :=
  ⟨(C6_register_then_fetch_roundtrip sampleEnv emptyStore "ns1"
      { TbImageInfo.zero with Name := "tb-unit-test" } rfl rfl (by decide) rfl).2.2.1,
   (C6_register_then_fetch_roundtrip sampleEnv emptyStore "ns1"
      { TbImageInfo.zero with Name := "tb-unit-test" } rfl rfl (by decide) rfl).2.2.2.1,
   (C6_register_then_fetch_roundtrip sampleEnv emptyStore "ns1"
      { TbImageInfo.zero with Name := "tb-unit-test" } rfl rfl (by decide) rfl).2.2.2.2⟩

/-! ## Synchronisation over all connection targets -/

theorem fetchImagesLoop_err_count (env : Env) (connConfig nsId : String)
    (l : List SpiderImageInfo) (imageCount : Nat) (s : Store)
    (h : (fetchImagesLoop env connConfig nsId l imageCount s).1.2 ≠ none) :
    (fetchImagesLoop env connConfig nsId l imageCount s).1.1 = 0 := by
  induction l generalizing imageCount s with
  | nil => simp [fetchImagesLoop] at h
  | cons sp rest ih =>
    revert h
    unfold fetchImagesLoop
    cases hc : ConvertSpiderImageToTumblebugImage sp with
    | mk t cerr =>
    cases cerr with
    | some e => simp
    | none =>
    simp only
    cases hcr : CheckResource env s nsId StrImage
        (connConfig ++ "-" ++ RefineImageName env.unicodeToLower t.Name) with
    | mk check kerr =>
    cases check with
    | true => exact ih imageCount s
    | false =>
    cases kerr with
    | some e => exact ih imageCount s
    | none =>
    simp only
    cases hr : RegisterImageWithInfo env s nsId
        { t with Name := connConfig ++ "-" ++ RefineImageName env.unicodeToLower t.Name,
                 ConnectionName := connConfig } with
    | mk res s1 =>
    obtain ⟨r, rerr⟩ := res
    cases rerr with
    | some e => simp
    | none => exact ih (imageCount + 1) s1

/-- A call of `FetchImagesForConnConfig` that returns an error returns the count 0. -/
theorem FetchImagesForConnConfig_err_count (env : Env) (s : Store) (connConfig nsId : String)
    (h : (FetchImagesForConnConfig env s connConfig nsId).1.2 ≠ none) :
    (FetchImagesForConnConfig env s connConfig nsId).1.1 = 0 := by
  revert h
  unfold FetchImagesForConnConfig
  cases hl : LookupImageList env connConfig with
  | mk l lerr =>
  cases lerr with
  | some e => simp
  | none => exact fetchImagesLoop_err_count env connConfig nsId l.Image 0 s

theorem FetchImagesForConnConfig_list_err (env : Env) (s : Store) (connConfig nsId : String)
    (h : (LookupImageList env connConfig).2 ≠ none) :
    (FetchImagesForConnConfig env s connConfig nsId).1.1 = 0 ∧
    (FetchImagesForConnConfig env s connConfig nsId).1.2 = (LookupImageList env connConfig).2 ∧
    (FetchImagesForConnConfig env s connConfig nsId).2 = s := by
  revert h
  unfold FetchImagesForConnConfig
  cases hl : LookupImageList env connConfig with
  | mk l lerr =>
  cases lerr with
  | some e => simp
  | none => simp

theorem fetchAllLoop_counts (env : Env) (nsId : String) (l : List ConnConfig)
    (connConfigCount imageCount : Nat) (s : Store) :
    (fetchAllLoop env nsId l connConfigCount imageCount s).1 =
      (connConfigCount + l.length,
        imageCount + ((perTargetResults env nsId l s).map (fun r => r.1)).sum) := by
  induction l generalizing connConfigCount imageCount s with
  | nil => simp [fetchAllLoop, perTargetResults]
  | cons c rest ih =>
    unfold fetchAllLoop
    simp only [ih, perTargetResults, List.length_cons, List.map_cons, List.sum_cons]
    ext
    · simp only; omega
    · simp only; omega

theorem perTargetResults_sum (env : Env) (nsId : String) (l : List ConnConfig) (s : Store) :
    ((perTargetResults env nsId l s).map (fun r => r.1)).sum =
      ((perTargetResults env nsId l s).map (fun r => if r.2 = none then r.1 else 0)).sum := by
  induction l generalizing s with
  | nil => simp [perTargetResults]
  | cons c rest ih =>
    simp only [perTargetResults, List.map_cons, List.sum_cons, ih]
    by_cases h : (FetchImagesForConnConfig env s c.ConfigName nsId).1.2 = none
    · simp [h]
    · simp [h, FetchImagesForConnConfig_err_count env s c.ConfigName nsId h]

/-- C5: for a namespace that passes the naming check and a list of connection
targets enumerated without error, `FetchImagesForAllConnConfigs` returns no
error, a target count equal to the number of targets, and an image count
equal to the sum of the counts of the per-target runs that returned no error,
a run that returned an error adding 0; with three targets of which the second
fails to list its images, the counts are 3 and the count of the first run plus
the count of the third run. -/
theorem C5_fetch_all_swallows_target_errors (env : Env) (s : Store) (nsId : String)
    (connConfigs : ConnConfigList)
    (hns : env.CheckString nsId = none)
    (hlist : env.GetConnConfigList = (connConfigs, none)) :
    (FetchImagesForAllConnConfigs env s nsId).1 =
      (connConfigs.Connectionconfig.length,
        ((perTargetResults env nsId connConfigs.Connectionconfig s).map
          (fun r => if r.2 = none then r.1 else 0)).sum,
        none) ∧
    (∀ t1 t2 t3 : ConnConfig, connConfigs.Connectionconfig = [t1, t2, t3] →
      (LookupImageList env t2.ConfigName).2 ≠ none →
      (FetchImagesForAllConnConfigs env s nsId).1 =
        (3,
          (FetchImagesForConnConfig env s t1.ConfigName nsId).1.1 +
            (FetchImagesForConnConfig env
              (FetchImagesForConnConfig env s t1.ConfigName nsId).2 t3.ConfigName nsId).1.1,
          none)) := by
  have hall : (FetchImagesForAllConnConfigs env s nsId).1 =
      (connConfigs.Connectionconfig.length,
        ((perTargetResults env nsId connConfigs.Connectionconfig s).map (fun r => r.1)).sum,
        none) := by
    unfold FetchImagesForAllConnConfigs
    simp only [hns, hlist, fetchAllLoop_counts]
    simp
  refine ⟨?_, ?_⟩
  · rw [hall, perTargetResults_sum]
  · intro t1 t2 t3 h3 hfail
    rw [hall, h3]
    obtain ⟨h0, _, hs⟩ := FetchImagesForConnConfig_list_err env
      (FetchImagesForConnConfig env s t1.ConfigName nsId).2 t2.ConfigName nsId hfail
    simp [perTargetResults, h0, hs]

/-- Witness of C5: three targets, the second failing to list its images. -/
theorem C5_fetch_all_swallows_target_errors_witness :
    (FetchImagesForAllConnConfigs threeTargetEnv emptyStore "ns1").1 = (3, 3, none) ∧
    (FetchImagesForConnConfig threeTargetEnv emptyStore "aws" "ns1").1.1 = 2 ∧
    (FetchImagesForConnConfig threeTargetEnv
      (FetchImagesForConnConfig threeTargetEnv emptyStore "aws" "ns1").2 "ncp" "ns1").1.1 = 1 :=
  ⟨((C5_fetch_all_swallows_target_errors threeTargetEnv emptyStore "ns1"
      { Connectionconfig :=
          [{ ConfigName := "aws" }, { ConfigName := "gcp" }, { ConfigName := "ncp" }] }
      rfl rfl).2 { ConfigName := "aws" } { ConfigName := "gcp" } { ConfigName := "ncp" } rfl
      (by decide)).trans (by decide),
   by decide, by decide⟩

/-! ## Provider image identifier of the stored records -/

theorem allCspImageIdsSet_iff (s : Store) :
    allCspImageIdsSet s = true ↔
      ∀ x ∈ s.kv, x.1.resourceType = StrImage →
        (jsonUnmarshal x.2 TbImageInfo.zero).CspImageId ≠ "" := by
  unfold allCspImageIdsSet
  rw [List.all_eq_true]
  constructor
  · intro h x hx
    exact of_decide_eq_true (h x hx)
  · intro h x hx
    exact decide_eq_true (h x hx)

theorem allCspImageIdsSet_put (s : Store) (key : ResourceKey) (t : TbImageInfo)
    (rows : List TbImageInfo)
    (hs : allCspImageIdsSet s = true) (ht : t.CspImageId ≠ "") :
    allCspImageIdsSet { kv := kvPut s.kv key (jsonMarshal t), rdb := rows } = true := by
  rw [allCspImageIdsSet_iff] at hs ⊢
  intro x hx hk
  rcases mem_kvPut s.kv key (jsonMarshal t) x hx with h | h
  · rw [h]
    simp only
    rw [jsonUnmarshal_jsonMarshal_zero]
    exact ht
  · exact hs x h hk

theorem kvGet_mem (kv : List (ResourceKey × JsonObject)) (key : ResourceKey) (v : JsonObject)
    (h : kvGet kv key = some v) : (key, v) ∈ kv := by
  induction kv with
  | nil => simp [kvGet] at h
  | cons hd tl ih =>
    obtain ⟨k, w⟩ := hd
    by_cases hk : k = key
    · simp only [kvGet, hk, if_true, Option.some.injEq] at h
      rw [hk, h]
      exact List.mem_cons_self _ _
    · simp only [kvGet, hk, if_false] at h
      exact List.mem_cons_of_mem _ (ih h)

theorem convert_ok_cspImageId (sp : SpiderImageInfo) (t : TbImageInfo)
    (h : ConvertSpiderImageToTumblebugImage sp = (t, none)) : t.CspImageId ≠ "" := by
  by_cases hn : sp.IId.NameId = ""
  · rw [convert_of_empty sp hn] at h
    simp at h
  · have h1 := convert_cspImageId sp hn
    rw [h] at h1
    simp only at h1
    rw [h1]
    exact hn

theorem RegisterImageWithId_keeps_cspImageId (env : Env) (s : Store) (nsId : String)
    (u : TbImageReq) (hs : allCspImageIdsSet s = true) :
    allCspImageIdsSet (RegisterImageWithId env s nsId u).2 = true := by
  by_cases herr : (RegisterImageWithId env s nsId u).1.2 = none
  · obtain ⟨_, _, _, res, content, hc, heq⟩ := RegisterImageWithId_success_inv env s nsId u herr
    rw [heq]
    exact allCspImageIdsSet_put s _ (registeredFromId nsId u content) _ hs
      (convert_ok_cspImageId res content hc)
  · rw [RegisterImageWithId_err_unchanged env s nsId u herr]
    exact hs

theorem RegisterImageWithInfo_keeps_cspImageId (env : Env) (s : Store) (nsId : String)
    (content : TbImageInfo) (hs : allCspImageIdsSet s = true) (hc : content.CspImageId ≠ "") :
    allCspImageIdsSet (RegisterImageWithInfo env s nsId content).2 = true := by
  by_cases herr : (RegisterImageWithInfo env s nsId content).1.2 = none
  · obtain ⟨_, _, _, _, heq⟩ := RegisterImageWithInfo_success_inv env s nsId content herr
    rw [heq]
    exact allCspImageIdsSet_put s _ (registeredInfo nsId content) _ hs hc
  · rw [RegisterImageWithInfo_err_unchanged env s nsId content herr]
    exact hs

theorem fetchImagesLoop_keeps_cspImageId (env : Env) (connConfig nsId : String)
    (l : List SpiderImageInfo) (imageCount : Nat) (s : Store)
    (hs : allCspImageIdsSet s = true) :
    allCspImageIdsSet (fetchImagesLoop env connConfig nsId l imageCount s).2 = true := by
  induction l generalizing imageCount s with
  | nil => simpa [fetchImagesLoop] using hs
  | cons sp rest ih =>
    unfold fetchImagesLoop
    cases hc : ConvertSpiderImageToTumblebugImage sp with
    | mk t cerr =>
    cases cerr with
    | some e => simpa using hs
    | none =>
    simp only
    cases hcr : CheckResource env s nsId StrImage
        (connConfig ++ "-" ++ RefineImageName env.unicodeToLower t.Name) with
    | mk check kerr =>
    cases check with
    | true => exact ih imageCount s hs
    | false =>
    cases kerr with
    | some e => exact ih imageCount s hs
    | none =>
    simp only
    have hreg := RegisterImageWithInfo_keeps_cspImageId env s nsId
        { t with Name := connConfig ++ "-" ++ RefineImageName env.unicodeToLower t.Name,
                 ConnectionName := connConfig } hs (convert_ok_cspImageId sp t hc)
    cases hr : RegisterImageWithInfo env s nsId
        { t with Name := connConfig ++ "-" ++ RefineImageName env.unicodeToLower t.Name,
                 ConnectionName := connConfig } with
    | mk res s1 =>
    rw [hr] at hreg
    obtain ⟨r, rerr⟩ := res
    cases rerr with
    | some e => simpa using hreg
    | none => exact ih (imageCount + 1) s1 hreg

theorem FetchImagesForConnConfig_keeps_cspImageId (env : Env) (s : Store)
    (connConfig nsId : String) (hs : allCspImageIdsSet s = true) :
    allCspImageIdsSet (FetchImagesForConnConfig env s connConfig nsId).2 = true := by
  unfold FetchImagesForConnConfig
  cases hl : LookupImageList env connConfig with
  | mk l lerr =>
  cases lerr with
  | some e => simpa using hs
  | none => exact fetchImagesLoop_keeps_cspImageId env connConfig nsId l.Image 0 s hs

theorem GetResource_some_inv (env : Env) (s : Store) (nsId resourceType resourceId : String)
    (t : TbImageInfo)
    (h : GetResource env s nsId resourceType resourceId = (some t, none)) :
    ∃ v, kvGet s.kv (GenResourceKey nsId resourceType resourceId) = some v ∧
      t = jsonUnmarshal v TbImageInfo.zero := by
  unfold GetResource CBStoreGet at h
  cases hget : env.cbStoreGetErr (GenResourceKey nsId resourceType resourceId) with
  | some e => simp [hget] at h
  | none =>
    cases hkv : kvGet s.kv (GenResourceKey nsId resourceType resourceId) with
    | none => simp [hget, hkv] at h
    | some v =>
      simp only [hget, hkv, Prod.mk.injEq, Option.some.injEq, and_true] at h
      exact ⟨v, rfl, h.symm⟩

theorem UpdateImage_keeps_cspImageId (env : Env) (s : Store) (nsId imageId : String)
    (p : TbImageInfo) (hs : allCspImageIdsSet s = true) :
    allCspImageIdsSet (UpdateImage env s nsId imageId p).2 = true := by
  cases hns : env.CheckString nsId with
  | some e => simpa [UpdateImage, hns] using hs
  | none =>
  by_cases hn : p.Namespace.length > 0
  · simpa [UpdateImage, hns, hn] using hs
  · by_cases hi : p.Id.length > 0
    · simpa [UpdateImage, hns, hn, hi] using hs
    · cases hcr : CheckResource env s nsId StrImage imageId with
      | mk check kerr =>
      cases kerr with
      | some e => simpa [UpdateImage, hns, hn, hi, hcr] using hs
      | none =>
      cases check with
      | false => simpa [UpdateImage, hns, hn, hi, hcr] using hs
      | true =>
      cases hgr : GetResource env s nsId StrImage imageId with
      | mk ti gerr =>
      cases gerr with
      | some e => simpa [UpdateImage, hns, hn, hi, hcr, hgr] using hs
      | none =>
      cases ti with
      | none => simpa [UpdateImage, hns, hn, hi, hcr, hgr, CopySrcToDest] using hs
      | some asIs =>
      obtain ⟨v, hv, hdec⟩ := GetResource_some_inv env s nsId StrImage imageId asIs hgr
      have hasIs : asIs.CspImageId ≠ "" := by
        rw [hdec]
        exact (allCspImageIdsSet_iff s).mp hs _ (kvGet_mem s.kv _ v hv) rfl
      have hto : (jsonUnmarshal (jsonMarshal p) asIs).CspImageId ≠ "" := by
        rw [jsonUnmarshal_jsonMarshal]
        simp only [overwriteNonDefault]
        split
        · exact hasIs
        · assumption
      cases hput : env.cbStorePutErr
          (GenResourceKey nsId StrImage (jsonUnmarshal (jsonMarshal p) asIs).Id)
          (jsonMarshal (jsonUnmarshal (jsonMarshal p) asIs)) with
      | some err =>
        have hp := CBStorePut_of_err env s _ _ err hput
        simpa [UpdateImage, hns, hn, hi, hcr, hgr, CopySrcToDest, hp] using hs
      | none =>
        have hp := CBStorePut_of_ok env s _ _ hput
        have hfin := allCspImageIdsSet_put s
          (GenResourceKey nsId StrImage (jsonUnmarshal (jsonMarshal p) asIs).Id)
          (jsonUnmarshal (jsonMarshal p) asIs)
          (env.ormUpdate s.rdb (jsonUnmarshal (jsonMarshal p) asIs)
            { TbImageInfo.zero with Namespace := nsId, Id := imageId }).1 hs hto
        simpa [UpdateImage, hns, hn, hi, hcr, hgr, CopySrcToDest, hp, ORMUpdate] using hfin

/-- C10 as stated fails for `RegisterImageWithInfo`: on the empty stores, the
registration of the repository's own test (a record with only `Name` set, in
namespace "tb-unit-test") succeeds and the record it stores has an empty
`CspImageId`. -/
theorem C10_counterexample_info_without_cspImageId :
    allCspImageIdsSet emptyStore = true ∧
    (RegisterImageWithInfo sampleEnv emptyStore "tb-unit-test"
      { TbImageInfo.zero with Name := "tb-unit-test" }).1.2 = none ∧
    allCspImageIdsSet (RegisterImageWithInfo sampleEnv emptyStore "tb-unit-test"
      { TbImageInfo.zero with Name := "tb-unit-test" }).2 = false ∧
    (GetResource sampleEnv (RegisterImageWithInfo sampleEnv emptyStore "tb-unit-test"
      { TbImageInfo.zero with Name := "tb-unit-test" }).2
      "tb-unit-test" StrImage "tb-unit-test").1.map (fun t => t.CspImageId) = some "" := by
  refine ⟨by decide, by decide, by decide, by decide⟩

/-- C10 (amended): from stores in which every stored image record has a
non-empty `CspImageId`, every call of `RegisterImageWithId`, of
`FetchImagesForConnConfig` and of `UpdateImage` leaves stores with that
property, and so does every call of `RegisterImageWithInfo` on a record whose
`CspImageId` is non-empty (that function stores the `CspImageId` it is
given). -/
theorem C10_cspImageId_stays_set (env : Env) (s : Store) (hs : allCspImageIdsSet s = true) :
    (∀ (nsId : String) (u : TbImageReq),
      allCspImageIdsSet (RegisterImageWithId env s nsId u).2 = true) ∧
    (∀ connConfig nsId : String,
      allCspImageIdsSet (FetchImagesForConnConfig env s connConfig nsId).2 = true) ∧
    (∀ (nsId imageId : String) (fieldsToUpdate : TbImageInfo),
      allCspImageIdsSet (UpdateImage env s nsId imageId fieldsToUpdate).2 = true) ∧
    (∀ (nsId : String) (content : TbImageInfo), content.CspImageId ≠ "" →
      allCspImageIdsSet (RegisterImageWithInfo env s nsId content).2 = true) :=
  ⟨fun nsId u => RegisterImageWithId_keeps_cspImageId env s nsId u hs,
   fun connConfig nsId => FetchImagesForConnConfig_keeps_cspImageId env s connConfig nsId hs,
   fun nsId imageId p => UpdateImage_keeps_cspImageId env s nsId imageId p hs,
   fun nsId content hc => RegisterImageWithInfo_keeps_cspImageId env s nsId content hs hc⟩

/-- Witness of C10 (amended): the four operations on the stores holding one image. -/
theorem C10_cspImageId_stays_set_witness :
    allCspImageIdsSet (RegisterImageWithId sampleEnv sampleStore "ns1"
      { Name := "img2", ConnectionName := "aws", CspImageId := "ami-7", Description := "" }).2
      = true ∧
    allCspImageIdsSet (FetchImagesForConnConfig sampleEnv sampleStore "aws" "ns1").2 = true ∧
    allCspImageIdsSet (UpdateImage sampleEnv sampleStore "ns1" "img"
      { TbImageInfo.zero with Description := "new" }).2 = true ∧
    allCspImageIdsSet (RegisterImageWithInfo sampleEnv sampleStore "ns1"
      { TbImageInfo.zero with Name := "img3", CspImageId := "ami-3" }).2 = true :=
  ⟨(C10_cspImageId_stays_set sampleEnv sampleStore (by decide)).1 "ns1"
      { Name := "img2", ConnectionName := "aws", CspImageId := "ami-7", Description := "" },
   (C10_cspImageId_stays_set sampleEnv sampleStore (by decide)).2.1 "aws" "ns1",
   (C10_cspImageId_stays_set sampleEnv sampleStore (by decide)).2.2.1 "ns1" "img"
      { TbImageInfo.zero with Description := "new" },
   (C10_cspImageId_stays_set sampleEnv sampleStore (by decide)).2.2.2 "ns1"
      { TbImageInfo.zero with Name := "img3", CspImageId := "ami-3" } (by decide)⟩

/-! ## Synchronising one connection target twice -/

theorem kvPut_new (kv : List (ResourceKey × JsonObject)) (key : ResourceKey) (val : JsonObject)
    (h : kvGet kv key = none) : kvPut kv key val = kv ++ [(key, val)] := by
  induction kv with
  | nil => rfl
  | cons hd tl ih =>
    obtain ⟨k, v⟩ := hd
    by_cases hk : k = key
    · simp [kvGet, hk] at h
    · simp only [kvGet, hk, if_false] at h
      simp [kvPut, hk, ih h]

theorem kvGet_isSome_kvPut (kv : List (ResourceKey × JsonObject)) (key key2 : ResourceKey)
    (val : JsonObject) (h : (kvGet kv key2).isSome = true) :
    (kvGet (kvPut kv key val) key2).isSome = true := by
  by_cases hk : key = key2
  · rw [hk, kvGet_kvPut_self]
    rfl
  · rw [kvGet_kvPut_other kv key key2 val hk]
    exact h

theorem GenResourceKey_ne (nsId resourceType a b : String) (h : a ≠ b) :
    GenResourceKey nsId resourceType a ≠ GenResourceKey nsId resourceType b := by
  intro heq
  exact h (congrArg ResourceKey.resourceId heq)

theorem fetchImagesLoop_step_new (env : Env) (connConfig nsId : String)
    (sp : SpiderImageInfo) (rest : List SpiderImageInfo) (imageCount : Nat) (s : Store)
    (hns : env.CheckString nsId = none)
    (hsp : sp.IId.NameId ≠ "")
    (hvalid : env.CheckString (tumblebugImageIdOf env connConfig sp) = none)
    (hget : env.cbStoreGetErr
      (GenResourceKey nsId StrImage (tumblebugImageIdOf env connConfig sp)) = none)
    (hput : ∀ val, env.cbStorePutErr
      (GenResourceKey nsId StrImage (tumblebugImageIdOf env connConfig sp)) val = none)
    (hnone : kvGet s.kv (GenResourceKey nsId StrImage (tumblebugImageIdOf env connConfig sp))
      = none) :
    ∃ (val : JsonObject) (rows : List TbImageInfo),
      fetchImagesLoop env connConfig nsId (sp :: rest) imageCount s =
        fetchImagesLoop env connConfig nsId rest (imageCount + 1)
          { kv := s.kv ++ [(GenResourceKey nsId StrImage (tumblebugImageIdOf env connConfig sp),
              val)],
            rdb := rows } := by
  cases hc : ConvertSpiderImageToTumblebugImage sp with
  | mk t cerr =>
  have herr := convert_err_of_nonempty sp hsp
  rw [hc] at herr
  simp only at herr
  subst herr
  have hid : tumblebugImageIdOf env connConfig sp =
      connConfig ++ "-" ++ RefineImageName env.unicodeToLower t.Name := by
    simp [tumblebugImageIdOf, hc]
  rw [hid] at hvalid hget hput hnone
  have hcr : CheckResource env s nsId StrImage
      (connConfig ++ "-" ++ RefineImageName env.unicodeToLower t.Name) = (false, none) := by
    rw [CheckResource_of_get env s nsId StrImage _ hget, hnone]
    rfl
  have hreg := RegisterImageWithInfo_new env s nsId
    { t with Name := connConfig ++ "-" ++ RefineImageName env.unicodeToLower t.Name,
             ConnectionName := connConfig } hns hvalid hcr (hput _)
  refine ⟨jsonMarshal (registeredInfo nsId
      { t with Name := connConfig ++ "-" ++ RefineImageName env.unicodeToLower t.Name,
               ConnectionName := connConfig }),
    (env.ormInsert s.rdb (registeredInfo nsId
      { t with Name := connConfig ++ "-" ++ RefineImageName env.unicodeToLower t.Name,
               ConnectionName := connConfig })).1, ?_⟩
  rw [fetchImagesLoop, hc]
  simp only [hcr, hreg, hid, ORMInsert]
  rw [kvPut_new s.kv _ _ hnone]

theorem fetchImagesLoop_step_existing (env : Env) (connConfig nsId : String)
    (sp : SpiderImageInfo) (rest : List SpiderImageInfo) (imageCount : Nat) (s : Store)
    (hsp : sp.IId.NameId ≠ "")
    (hget : env.cbStoreGetErr
      (GenResourceKey nsId StrImage (tumblebugImageIdOf env connConfig sp)) = none)
    (hsome : (kvGet s.kv
      (GenResourceKey nsId StrImage (tumblebugImageIdOf env connConfig sp))).isSome = true) :
    fetchImagesLoop env connConfig nsId (sp :: rest) imageCount s =
      fetchImagesLoop env connConfig nsId rest imageCount s := by
  cases hc : ConvertSpiderImageToTumblebugImage sp with
  | mk t cerr =>
  have herr := convert_err_of_nonempty sp hsp
  rw [hc] at herr
  simp only at herr
  subst herr
  have hid : tumblebugImageIdOf env connConfig sp =
      connConfig ++ "-" ++ RefineImageName env.unicodeToLower t.Name := by
    simp [tumblebugImageIdOf, hc]
  rw [hid] at hget hsome
  have hcr : CheckResource env s nsId StrImage
      (connConfig ++ "-" ++ RefineImageName env.unicodeToLower t.Name) = (true, none) := by
    rw [CheckResource_of_get env s nsId StrImage _ hget, hsome]
  rw [fetchImagesLoop, hc]
  simp only [hcr]

theorem kvGet_append_none (a b : List (ResourceKey × JsonObject)) (key : ResourceKey)
    (h : kvGet a key = none) : kvGet (a ++ b) key = kvGet b key := by
  induction a with
  | nil => rfl
  | cons hd tl ih =>
    obtain ⟨k, v⟩ := hd
    by_cases hk : k = key
    · simp [kvGet, hk] at h
    · simp only [kvGet, hk, if_false] at h
      simp [kvGet, hk, ih h]

theorem kvGet_isSome_of_mem_keys (kv : List (ResourceKey × JsonObject)) (key : ResourceKey)
    (h : key ∈ kv.map Prod.fst) : (kvGet kv key).isSome = true := by
  induction kv with
  | nil => simp at h
  | cons hd tl ih =>
    obtain ⟨k, v⟩ := hd
    by_cases hk : k = key
    · simp [kvGet, hk]
    · simp only [List.map_cons, List.mem_cons] at h
      rcases h with h | h
      · exact absurd h.symm hk
      · simp [kvGet, hk, ih h]

theorem kvGet_isSome_append (a b : List (ResourceKey × JsonObject)) (key : ResourceKey)
    (h : key ∈ b.map Prod.fst) : (kvGet (a ++ b) key).isSome = true := by
  apply kvGet_isSome_of_mem_keys
  rw [List.map_append]
  exact List.mem_append_right _ h

/-- The first run: records with pairwise distinct derived ids, none of them in
the store, are all registered, each under its own new key. -/
theorem fetchImagesLoop_all_new (env : Env) (connConfig nsId : String)
    (hns : env.CheckString nsId = none) (l : List SpiderImageInfo) :
    ∀ (imageCount : Nat) (s : Store),
    (∀ sp ∈ l, sp.IId.NameId ≠ "") →
    (l.map (tumblebugImageIdOf env connConfig)).Nodup →
    (∀ sp ∈ l, env.CheckString (tumblebugImageIdOf env connConfig sp) = none) →
    (∀ sp ∈ l, env.cbStoreGetErr
      (GenResourceKey nsId StrImage (tumblebugImageIdOf env connConfig sp)) = none) →
    (∀ sp ∈ l, ∀ val, env.cbStorePutErr
      (GenResourceKey nsId StrImage (tumblebugImageIdOf env connConfig sp)) val = none) →
    (∀ sp ∈ l, kvGet s.kv
      (GenResourceKey nsId StrImage (tumblebugImageIdOf env connConfig sp)) = none) →
    ∃ (news : List (ResourceKey × JsonObject)) (rows : List TbImageInfo),
      news.map Prod.fst =
        l.map (fun sp => GenResourceKey nsId StrImage (tumblebugImageIdOf env connConfig sp)) ∧
      fetchImagesLoop env connConfig nsId l imageCount s =
        ((imageCount + l.length, none), { kv := s.kv ++ news, rdb := rows }) := by
  induction l with
  | nil =>
    intro imageCount s _ _ _ _ _ _
    exact ⟨[], s.rdb, rfl, by simp [fetchImagesLoop]⟩
  | cons sp rest ih =>
    intro imageCount s hname hnodup hvalid hget hput hnone
    have hmem : sp ∈ sp :: rest := List.mem_cons_self _ _
    obtain ⟨val, rows, hstep⟩ := fetchImagesLoop_step_new env connConfig nsId sp rest imageCount s
      hns (hname sp hmem) (hvalid sp hmem) (hget sp hmem) (hput sp hmem) (hnone sp hmem)
    rw [List.map_cons, List.nodup_cons] at hnodup
    have hnone1 : ∀ sp2 ∈ rest,
        kvGet (s.kv ++ [(GenResourceKey nsId StrImage (tumblebugImageIdOf env connConfig sp),
          val)])
          (GenResourceKey nsId StrImage (tumblebugImageIdOf env connConfig sp2)) = none := by
      intro sp2 h2
      rw [kvGet_append_none _ _ _ (hnone sp2 (List.mem_cons_of_mem _ h2))]
      have hne : tumblebugImageIdOf env connConfig sp ≠ tumblebugImageIdOf env connConfig sp2 := by
        intro heq
        exact hnodup.1 (heq ▸ List.mem_map_of_mem _ h2)
      simp [kvGet, GenResourceKey_ne nsId StrImage _ _ hne]
    obtain ⟨news, rows2, hkeys, hrun⟩ := ih (imageCount + 1)
      { kv := s.kv ++ [(GenResourceKey nsId StrImage (tumblebugImageIdOf env connConfig sp),
          val)], rdb := rows }
      (fun x hx => hname x (List.mem_cons_of_mem _ hx)) hnodup.2
      (fun x hx => hvalid x (List.mem_cons_of_mem _ hx))
      (fun x hx => hget x (List.mem_cons_of_mem _ hx))
      (fun x hx => hput x (List.mem_cons_of_mem _ hx)) hnone1
    refine ⟨(GenResourceKey nsId StrImage (tumblebugImageIdOf env connConfig sp), val) :: news,
      rows2, ?_, ?_⟩
    · simp [hkeys]
    · rw [hstep, hrun]
      simp only [List.length_cons, List.append_assoc, List.singleton_append, Prod.mk.injEq,
        and_true]
      omega

/-- The second run: records whose derived ids are all in the store are all skipped. -/
theorem fetchImagesLoop_all_existing (env : Env) (connConfig nsId : String)
    (l : List SpiderImageInfo) (imageCount : Nat) (s : Store)
    (hname : ∀ sp ∈ l, sp.IId.NameId ≠ "")
    (hget : ∀ sp ∈ l, env.cbStoreGetErr
      (GenResourceKey nsId StrImage (tumblebugImageIdOf env connConfig sp)) = none)
    (hsome : ∀ sp ∈ l, (kvGet s.kv
      (GenResourceKey nsId StrImage (tumblebugImageIdOf env connConfig sp))).isSome = true) :
    fetchImagesLoop env connConfig nsId l imageCount s = ((imageCount, none), s) := by
  induction l with
  | nil => simp [fetchImagesLoop]
  | cons sp rest ih =>
    have hmem : sp ∈ sp :: rest := List.mem_cons_self _ _
    rw [fetchImagesLoop_step_existing env connConfig nsId sp rest imageCount s (hname sp hmem)
      (hget sp hmem) (hsome sp hmem)]
    exact ih (fun x hx => hname x (List.mem_cons_of_mem _ hx))
      (fun x hx => hget x (List.mem_cons_of_mem _ hx))
      (fun x hx => hsome x (List.mem_cons_of_mem _ hx))

theorem imageEntries_append (kv news : List (ResourceKey × JsonObject))
    (rows1 rows2 : List TbImageInfo) (nsId : String)
    (h : ∀ x ∈ news, x.1.nsId = nsId ∧ x.1.resourceType = StrImage) :
    (imageEntries { kv := kv ++ news, rdb := rows2 } nsId).length =
      (imageEntries { kv := kv, rdb := rows1 } nsId).length + news.length := by
  simp only [imageEntries, List.filter_append, List.length_append]
  congr 1
  rw [List.filter_eq_self.mpr]
  intro x hx
  exact decide_eq_true (h x hx)

/-- C4 as stated fails: the driver lists two images with distinct non-empty
identifiers and the same attribute "Name"; both derive the id
"aws-ubuntu-20-04", so that on the empty stores the first run registers one
image and returns the count 1, not 2, and the namespace ends with one entry. -/
theorem C4_counterexample_same_derived_id :
    (((LookupImageList sameNameEnv "aws").1.Image.map (fun sp => sp.IId.NameId)).Nodup ∧
      ∀ sp ∈ (LookupImageList sameNameEnv "aws").1.Image, sp.IId.NameId ≠ "") ∧
    (LookupImageList sameNameEnv "aws").1.Image.length = 2 ∧
    (LookupImageList sameNameEnv "aws").1.Image.map (tumblebugImageIdOf sameNameEnv "aws") =
      ["aws-ubuntu-20-04", "aws-ubuntu-20-04"] ∧
    imageEntries emptyStore "ns1" = [] ∧
    (FetchImagesForConnConfig sameNameEnv emptyStore "aws" "ns1").1 = (1, none) ∧
    (imageEntries (FetchImagesForConnConfig sameNameEnv
      (FetchImagesForConnConfig sameNameEnv emptyStore "aws" "ns1").2 "aws" "ns1").2
      "ns1").length = 1 := by
  refine ⟨⟨by decide, by decide⟩, by decide, by decide, by decide, by decide, by decide⟩

/-- C4 (amended): for a namespace that passes the naming check and holds no
image yet, and a provider list of N images with non-empty identifiers whose
derived ids (connection name, hyphen, normalised name) are pairwise distinct
and pass the naming check, the list served identically on both runs, every
existence check and every store write succeeding: the first
`FetchImagesForConnConfig` returns the count N, the second returns the count
0 and changes nothing, and the namespace then holds exactly N image
entries. -/
theorem C4_sync_twice_dedup (env : Env) (s : Store) (connConfig nsId : String)
    (images : List SpiderImageInfo)
    (hlist : LookupImageList env connConfig = ({ Image := images }, none))
    (hns : env.CheckString nsId = none)
    (hfresh : imageEntries s nsId = [])
    (hname : ∀ sp ∈ images, sp.IId.NameId ≠ "")
    (hdistinct : (images.map (tumblebugImageIdOf env connConfig)).Nodup)
    (hvalid : ∀ sp ∈ images, env.CheckString (tumblebugImageIdOf env connConfig sp) = none)
    (hget : ∀ sp ∈ images, env.cbStoreGetErr
      (GenResourceKey nsId StrImage (tumblebugImageIdOf env connConfig sp)) = none)
    (hput : ∀ sp ∈ images, ∀ val, env.cbStorePutErr
      (GenResourceKey nsId StrImage (tumblebugImageIdOf env connConfig sp)) val = none) :
    (FetchImagesForConnConfig env s connConfig nsId).1 = (images.length, none) ∧
    (FetchImagesForConnConfig env
      (FetchImagesForConnConfig env s connConfig nsId).2 connConfig nsId).1 = (0, none) ∧
    (FetchImagesForConnConfig env
      (FetchImagesForConnConfig env s connConfig nsId).2 connConfig nsId).2 =
      (FetchImagesForConnConfig env s connConfig nsId).2 ∧
    (imageEntries (FetchImagesForConnConfig env
      (FetchImagesForConnConfig env s connConfig nsId).2 connConfig nsId).2 nsId).length =
      images.length := by
  have hnone : ∀ sp ∈ images, kvGet s.kv
      (GenResourceKey nsId StrImage (tumblebugImageIdOf env connConfig sp)) = none := by
    intro sp _
    cases hkv : kvGet s.kv
        (GenResourceKey nsId StrImage (tumblebugImageIdOf env connConfig sp)) with
    | none => rfl
    | some v =>
      exfalso
      have hmem := kvGet_mem s.kv _ v hkv
      have hin : (GenResourceKey nsId StrImage (tumblebugImageIdOf env connConfig sp), v) ∈
          imageEntries s nsId := by
        unfold imageEntries
        rw [List.mem_filter]
        exact ⟨hmem, decide_eq_true ⟨rfl, rfl⟩⟩
      rw [hfresh] at hin
      simp at hin
  obtain ⟨news, rows, hkeys, hrun⟩ := fetchImagesLoop_all_new env connConfig nsId hns images 0 s
    hname hdistinct hvalid hget hput hnone
  have hfirst : FetchImagesForConnConfig env s connConfig nsId =
      ((images.length, none), { kv := s.kv ++ news, rdb := rows }) := by
    unfold FetchImagesForConnConfig
    rw [hlist]
    simp only [hrun, Nat.zero_add]
  have hsome : ∀ sp ∈ images, (kvGet (s.kv ++ news)
      (GenResourceKey nsId StrImage (tumblebugImageIdOf env connConfig sp))).isSome = true := by
    intro sp hsp
    apply kvGet_isSome_append
    rw [hkeys]
    exact List.mem_map_of_mem
      (fun sp => GenResourceKey nsId StrImage (tumblebugImageIdOf env connConfig sp)) hsp
  have hsecond : FetchImagesForConnConfig env { kv := s.kv ++ news, rdb := rows } connConfig nsId =
      ((0, none), { kv := s.kv ++ news, rdb := rows }) := by
    unfold FetchImagesForConnConfig
    rw [hlist]
    exact fetchImagesLoop_all_existing env connConfig nsId images 0 _ hname hget hsome
  have hlen : news.length = images.length := by
    have := congrArg List.length hkeys
    simpa using this
  have hnews : ∀ x ∈ news, x.1.nsId = nsId ∧ x.1.resourceType = StrImage := by
    intro x hx
    have hx1 : x.1 ∈ news.map Prod.fst := List.mem_map_of_mem Prod.fst hx
    rw [hkeys, List.mem_map] at hx1
    obtain ⟨sp, _, hsp⟩ := hx1
    rw [← hsp]
    exact ⟨rfl, rfl⟩
  rw [hfirst, hsecond]
  refine ⟨rfl, rfl, rfl, ?_⟩
  rw [imageEntries_append s.kv news s.rdb rows nsId hnews, ← hlen]
  have h0 : imageEntries { kv := s.kv, rdb := s.rdb } nsId = [] := hfresh
  rw [h0]
  simp

/-- Witness of C4 (amended): the two images of connection "aws" synchronised
twice into the empty namespace "ns1". -/
theorem C4_sync_twice_dedup_witness :
    (FetchImagesForConnConfig sampleEnv emptyStore "aws" "ns1").1 = (2, none) ∧
    (FetchImagesForConnConfig sampleEnv
      (FetchImagesForConnConfig sampleEnv emptyStore "aws" "ns1").2 "aws" "ns1").1 = (0, none) ∧
    (imageEntries (FetchImagesForConnConfig sampleEnv
      (FetchImagesForConnConfig sampleEnv emptyStore "aws" "ns1").2 "aws" "ns1").2
      "ns1").length = 2 :=
  ⟨(C4_sync_twice_dedup sampleEnv emptyStore "aws" "ns1" (LookupImageList sampleEnv "aws").1.Image
      rfl rfl rfl (by decide) (by decide) (fun _ _ => rfl) (fun _ _ => rfl)
      (fun _ _ _ => rfl)).1,
   (C4_sync_twice_dedup sampleEnv emptyStore "aws" "ns1" (LookupImageList sampleEnv "aws").1.Image
      rfl rfl rfl (by decide) (by decide) (fun _ _ => rfl) (fun _ _ => rfl)
      (fun _ _ _ => rfl)).2.1,
   (C4_sync_twice_dedup sampleEnv emptyStore "aws" "ns1" (LookupImageList sampleEnv "aws").1.Image
      rfl rfl rfl (by decide) (by decide) (fun _ _ => rfl) (fun _ _ => rfl)
      (fun _ _ _ => rfl)).2.2.2⟩

/-! ## Field mapping of the conversion -/

theorem LookupKeyValueList_eq_getD (kvl : List KeyValue) (key : String) :
    LookupKeyValueList kvl key =
      ((kvl.find? (fun kv => decide (kv.Key = key))).map (fun e => e.Value)).getD "" := by
  rw [LookupKeyValueList_eq_find]
  cases kvl.find? (fun kv => decide (kv.Key = key)) <;> rfl

theorem convert_ok_fields (sp : SpiderImageInfo) (h : sp.IId.NameId ≠ "") :
    (ConvertSpiderImageToTumblebugImage sp).1 =
      { Namespace := "", Id := "",
        Name := (ConvertSpiderImageToTumblebugImage sp).1.Name,
        ConnectionName := "",
        CspImageId := sp.IId.NameId,
        CspImageName := LookupKeyValueList sp.KeyValueList "Name",
        Description := LookupKeyValueList sp.KeyValueList "Description",
        CreationDate := LookupKeyValueList sp.KeyValueList "CreationDate",
        GuestOS := sp.GuestOS, Status := sp.Status, KeyValueList := sp.KeyValueList,
        AssociatedObjectList := [], IsAutoGenerated := false } := by
  by_cases hl : (LookupKeyValueList sp.KeyValueList "Name").length > 0
  · simp [ConvertSpiderImageToTumblebugImage, h, hl, TbImageInfo.zero]
  · simp [ConvertSpiderImageToTumblebugImage, h, hl, TbImageInfo.zero]

/-- C11: for a provider record with a non-empty `IId.NameId`, the record
returned by `ConvertSpiderImageToTumblebugImage` has `CspImageId = IId.NameId`;
`CspImageName`, `Description` and `CreationDate` are the values of the
attribute-list entries keyed "Name", "Description" and "CreationDate", each
the empty string when no entry has the key; `GuestOS`, `Status` and
`KeyValueList` are those of the provider record; and `Namespace`, `Id` and
`ConnectionName` are left empty. -/
theorem C11_convert_field_mapping (sp : SpiderImageInfo) (h : sp.IId.NameId ≠ "") :
    (ConvertSpiderImageToTumblebugImage sp).2 = none ∧
    (ConvertSpiderImageToTumblebugImage sp).1.CspImageId = sp.IId.NameId ∧
    (ConvertSpiderImageToTumblebugImage sp).1.CspImageName =
      ((sp.KeyValueList.find? (fun kv => decide (kv.Key = "Name"))).map
        (fun e => e.Value)).getD "" ∧
    (ConvertSpiderImageToTumblebugImage sp).1.Description =
      ((sp.KeyValueList.find? (fun kv => decide (kv.Key = "Description"))).map
        (fun e => e.Value)).getD "" ∧
    (ConvertSpiderImageToTumblebugImage sp).1.CreationDate =
      ((sp.KeyValueList.find? (fun kv => decide (kv.Key = "CreationDate"))).map
        (fun e => e.Value)).getD "" ∧
    (ConvertSpiderImageToTumblebugImage sp).1.GuestOS = sp.GuestOS ∧
    (ConvertSpiderImageToTumblebugImage sp).1.Status = sp.Status ∧
    (ConvertSpiderImageToTumblebugImage sp).1.KeyValueList = sp.KeyValueList ∧
    (ConvertSpiderImageToTumblebugImage sp).1.Namespace = "" ∧
    (ConvertSpiderImageToTumblebugImage sp).1.Id = "" ∧
    (ConvertSpiderImageToTumblebugImage sp).1.ConnectionName = "" := by
  have hf := convert_ok_fields sp h
  refine ⟨convert_err_of_nonempty sp h, ?_, ?_, ?_, ?_, ?_, ?_, ?_, ?_, ?_, ?_⟩
  · rw [hf]
  · rw [hf, ← LookupKeyValueList_eq_getD]
  · rw [hf, ← LookupKeyValueList_eq_getD]
  · rw [hf, ← LookupKeyValueList_eq_getD]
  · rw [hf]
  · rw [hf]
  · rw [hf]
  · rw [hf]
  · rw [hf]
  · rw [hf]

/-- Witness of C11: a provider record with the attributes "Name" and
"Description" and without the attribute "CreationDate". -/
theorem C11_convert_field_mapping_witness :
    (ConvertSpiderImageToTumblebugImage spiderImageWithAttributes).1 =
      { Namespace := "", Id := "", Name := "Ubuntu 20.04", ConnectionName := "",
        CspImageId := "ami-1", CspImageName := "Ubuntu 20.04", Description := "LTS",
        CreationDate := "", GuestOS := "Ubuntu", Status := "available",
        KeyValueList := [{ Key := "Name", Value := "Ubuntu 20.04" },
          { Key := "Description", Value := "LTS" }],
        AssociatedObjectList := [], IsAutoGenerated := false } ∧
    (ConvertSpiderImageToTumblebugImage spiderImageWithAttributes).1.CreationDate =
      ((spiderImageWithAttributes.KeyValueList.find?
        (fun kv => decide (kv.Key = "CreationDate"))).map (fun e => e.Value)).getD "" :=
  ⟨by decide,
   (C11_convert_field_mapping spiderImageWithAttributes (by decide)).2.2.2.2.1⟩

/-! ## Abort of a synchronisation on a record that cannot be converted -/

theorem fetchImagesLoop_cons_bad (env : Env) (connConfig nsId : String)
    (sp : SpiderImageInfo) (h : sp.IId.NameId = "") (rest : List SpiderImageInfo)
    (imageCount : Nat) (s : Store) :
    fetchImagesLoop env connConfig nsId (sp :: rest) imageCount s =
      ((0, some "ConvertSpiderImageToTumblebugImage failed; spiderImage.IId.NameId == \"\" "),
        s) := by
  rw [fetchImagesLoop, convert_of_empty sp h]

/-- One turn of the loop on a record that converts: either the run ends there
with an error and the stores as they were, or the loop goes on with the rest
of the list, having written at most the entry of this record. -/
theorem fetchImagesLoop_cons_good (env : Env) (connConfig nsId : String)
    (sp : SpiderImageInfo) (h : sp.IId.NameId ≠ "") (imageCount : Nat) (s : Store) :
    (∃ e, ∀ rest, fetchImagesLoop env connConfig nsId (sp :: rest) imageCount s =
      ((0, some e), s)) ∨
    (∃ (k : Nat) (s1 : Store),
      (∀ rest, fetchImagesLoop env connConfig nsId (sp :: rest) imageCount s =
        fetchImagesLoop env connConfig nsId rest k s1) ∧
      (∀ x ∈ s1.kv, x ∈ s.kv ∨
        x.1 = GenResourceKey nsId StrImage (tumblebugImageIdOf env connConfig sp))) := by
  cases hc : ConvertSpiderImageToTumblebugImage sp with
  | mk t cerr =>
  have herr := convert_err_of_nonempty sp h
  rw [hc] at herr
  simp only at herr
  subst herr
  have hid : tumblebugImageIdOf env connConfig sp =
      connConfig ++ "-" ++ RefineImageName env.unicodeToLower t.Name := by
    simp [tumblebugImageIdOf, hc]
  cases hcr : CheckResource env s nsId StrImage
      (connConfig ++ "-" ++ RefineImageName env.unicodeToLower t.Name) with
  | mk check kerr =>
  cases check with
  | true =>
    refine Or.inr ⟨imageCount, s, ?_, fun x hx => Or.inl hx⟩
    intro rest
    rw [fetchImagesLoop, hc]
    simp only [hcr]
  | false =>
  cases kerr with
  | some e =>
    refine Or.inr ⟨imageCount, s, ?_, fun x hx => Or.inl hx⟩
    intro rest
    rw [fetchImagesLoop, hc]
    simp only [hcr]
  | none =>
  cases hr : RegisterImageWithInfo env s nsId
      { t with Name := connConfig ++ "-" ++ RefineImageName env.unicodeToLower t.Name,
               ConnectionName := connConfig } with
  | mk res s1 =>
  obtain ⟨r, rerr⟩ := res
  cases rerr with
  | some e =>
    have hun := RegisterImageWithInfo_err_unchanged env s nsId
      { t with Name := connConfig ++ "-" ++ RefineImageName env.unicodeToLower t.Name,
               ConnectionName := connConfig } (by rw [hr]; simp)
    rw [hr] at hun
    simp only at hun
    subst hun
    refine Or.inl ⟨e, ?_⟩
    intro rest
    rw [fetchImagesLoop, hc]
    simp only [hcr, hr]
  | none =>
    refine Or.inr ⟨imageCount + 1, s1, ?_, ?_⟩
    · intro rest
      rw [fetchImagesLoop, hc]
      simp only [hcr, hr]
    · obtain ⟨_, _, _, _, heq⟩ := RegisterImageWithInfo_success_inv env s nsId
        { t with Name := connConfig ++ "-" ++ RefineImageName env.unicodeToLower t.Name,
                 ConnectionName := connConfig } (by rw [hr])
      rw [hr] at heq
      have hs1 := congrArg Prod.snd heq
      simp only [ORMInsert] at hs1
      intro x hx
      rw [hs1] at hx
      simp only at hx
      rcases mem_kvPut _ _ _ x hx with hx1 | hx1
      · right
        rw [hx1, hid]
      · exact Or.inl hx1

theorem takeWhile_converts_cons_good (sp : SpiderImageInfo) (rest : List SpiderImageInfo)
    (h : sp.IId.NameId ≠ "") :
    (sp :: rest).takeWhile (fun x => decide (x.IId.NameId ≠ "")) =
      sp :: rest.takeWhile (fun x => decide (x.IId.NameId ≠ "")) := by
  rw [List.takeWhile_cons]
  simp [h]

theorem takeWhile_converts_cons_bad (sp : SpiderImageInfo) (rest : List SpiderImageInfo)
    (h : sp.IId.NameId = "") :
    (sp :: rest).takeWhile (fun x => decide (x.IId.NameId ≠ "")) = [] := by
  rw [List.takeWhile_cons]
  simp [h]

/-- A list with a record that cannot be converted makes the loop return an error. -/
theorem fetchImagesLoop_err_of_bad (env : Env) (connConfig nsId : String)
    (l : List SpiderImageInfo) (imageCount : Nat) (s : Store)
    (hbad : ∃ sp ∈ l, sp.IId.NameId = "") :
    (fetchImagesLoop env connConfig nsId l imageCount s).1.2 ≠ none := by
  induction l generalizing imageCount s with
  | nil =>
    obtain ⟨sp, hsp, _⟩ := hbad
    simp at hsp
  | cons sp rest ih =>
    by_cases h : sp.IId.NameId = ""
    · rw [fetchImagesLoop_cons_bad env connConfig nsId sp h]
      simp
    · have hrest : ∃ x ∈ rest, x.IId.NameId = "" := by
        obtain ⟨x, hx, hxe⟩ := hbad
        rcases List.mem_cons.mp hx with hx1 | hx1
        · exact absurd (hx1 ▸ hxe) h
        · exact ⟨x, hx1, hxe⟩
      rcases fetchImagesLoop_cons_good env connConfig nsId sp h imageCount s with
        ⟨e, he⟩ | ⟨k, s1, hk, _⟩
      · rw [he rest]
        simp
      · rw [hk rest]
        exact ih k s1 hrest

/-- The stores after the loop are those after the loop on the records that
come before the first record that cannot be converted. -/
theorem fetchImagesLoop_store_takeWhile (env : Env) (connConfig nsId : String)
    (l : List SpiderImageInfo) (imageCount : Nat) (s : Store) :
    (fetchImagesLoop env connConfig nsId l imageCount s).2 =
      (fetchImagesLoop env connConfig nsId
        (l.takeWhile (fun x => decide (x.IId.NameId ≠ ""))) imageCount s).2 := by
  induction l generalizing imageCount s with
  | nil => rfl
  | cons sp rest ih =>
    by_cases h : sp.IId.NameId = ""
    · rw [takeWhile_converts_cons_bad sp rest h,
        fetchImagesLoop_cons_bad env connConfig nsId sp h]
      simp [fetchImagesLoop]
    · rw [takeWhile_converts_cons_good sp rest h]
      rcases fetchImagesLoop_cons_good env connConfig nsId sp h imageCount s with
        ⟨e, he⟩ | ⟨k, s1, hk, _⟩
      · rw [he rest, he _]
      · rw [hk rest, hk _]
        exact ih k s1

/-- Every entry of the key-value store after the loop was there before or
sits under the key of a record of the list. -/
theorem fetchImagesLoop_entries (env : Env) (connConfig nsId : String)
    (l : List SpiderImageInfo) (imageCount : Nat) (s : Store) :
    ∀ x ∈ (fetchImagesLoop env connConfig nsId l imageCount s).2.kv,
      x ∈ s.kv ∨ ∃ sp ∈ l,
        x.1 = GenResourceKey nsId StrImage (tumblebugImageIdOf env connConfig sp) := by
  induction l generalizing imageCount s with
  | nil =>
    intro x hx
    exact Or.inl (by simpa [fetchImagesLoop] using hx)
  | cons sp rest ih =>
    intro x hx
    by_cases h : sp.IId.NameId = ""
    · rw [fetchImagesLoop_cons_bad env connConfig nsId sp h] at hx
      exact Or.inl hx
    · rcases fetchImagesLoop_cons_good env connConfig nsId sp h imageCount s with
        ⟨e, he⟩ | ⟨k, s1, hk, hs1⟩
      · rw [he rest] at hx
        exact Or.inl hx
      · rw [hk rest] at hx
        rcases ih k s1 x hx with h1 | ⟨sp2, hsp2, hkey⟩
        · rcases hs1 x h1 with h2 | h2
          · exact Or.inl h2
          · exact Or.inr ⟨sp, List.mem_cons_self _ _, h2⟩
        · exact Or.inr ⟨sp2, List.mem_cons_of_mem _ hsp2, hkey⟩

/-- When no registration before the first record that cannot be converted
fails, the error returned is the error of the conversion. -/
theorem fetchImagesLoop_conversion_error (env : Env) (connConfig nsId : String)
    (l : List SpiderImageInfo) (imageCount : Nat) (s : Store)
    (hbad : ∃ sp ∈ l, sp.IId.NameId = "")
    (hok : (fetchImagesLoop env connConfig nsId
      (l.takeWhile (fun x => decide (x.IId.NameId ≠ ""))) imageCount s).1.2 = none) :
    (fetchImagesLoop env connConfig nsId l imageCount s).1.2 =
      some "ConvertSpiderImageToTumblebugImage failed; spiderImage.IId.NameId == \"\" " := by
  induction l generalizing imageCount s with
  | nil =>
    obtain ⟨sp, hsp, _⟩ := hbad
    simp at hsp
  | cons sp rest ih =>
    by_cases h : sp.IId.NameId = ""
    · rw [fetchImagesLoop_cons_bad env connConfig nsId sp h]
    · have hrest : ∃ x ∈ rest, x.IId.NameId = "" := by
        obtain ⟨x, hx, hxe⟩ := hbad
        rcases List.mem_cons.mp hx with hx1 | hx1
        · exact absurd (hx1 ▸ hxe) h
        · exact ⟨x, hx1, hxe⟩
      rw [takeWhile_converts_cons_good sp rest h] at hok
      rcases fetchImagesLoop_cons_good env connConfig nsId sp h imageCount s with
        ⟨e, he⟩ | ⟨k, s1, hk, _⟩
      · rw [he _] at hok
        simp at hok
      · rw [hk _] at hok
        rw [hk rest]
        exact ih k s1 hrest hok

/-- C12: when the provider list is fetched and holds a record with an empty
`IId.NameId`, `FetchImagesForConnConfig` returns the count 0 together with an
error, whatever was registered before; the stores it leaves are those left by
the loop on the records that precede the first such record, so that every
entry of the key-value store was there before the call or belongs to one of
those preceding records; the error is the one of the conversion when no
registration before it failed; and when the list cannot be fetched the
function returns the count 0 with the error of the fetch and leaves the
stores as they were. -/
theorem C12_fetch_aborts_on_conversion_failure (env : Env) (s : Store)
    (connConfig nsId : String) (images : List SpiderImageInfo)
    (hlist : LookupImageList env connConfig = ({ Image := images }, none))
    (hbad : ∃ sp ∈ images, sp.IId.NameId = "") :
    (FetchImagesForConnConfig env s connConfig nsId).1.1 = 0 ∧
    (FetchImagesForConnConfig env s connConfig nsId).1.2 ≠ none ∧
    (FetchImagesForConnConfig env s connConfig nsId).2 =
      (fetchImagesLoop env connConfig nsId
        (images.takeWhile (fun x => decide (x.IId.NameId ≠ ""))) 0 s).2 ∧
    (∀ x ∈ (FetchImagesForConnConfig env s connConfig nsId).2.kv,
      x ∈ s.kv ∨ ∃ sp ∈ images.takeWhile (fun x => decide (x.IId.NameId ≠ "")),
        x.1 = GenResourceKey nsId StrImage (tumblebugImageIdOf env connConfig sp)) ∧
    ((fetchImagesLoop env connConfig nsId
        (images.takeWhile (fun x => decide (x.IId.NameId ≠ ""))) 0 s).1.2 = none →
      (FetchImagesForConnConfig env s connConfig nsId).1.2 =
        some "ConvertSpiderImageToTumblebugImage failed; spiderImage.IId.NameId == \"\" ") ∧
    (∀ (s2 : Store) (connConfig2 : String), (LookupImageList env connConfig2).2 ≠ none →
      (FetchImagesForConnConfig env s2 connConfig2 nsId).1 =
        (0, (LookupImageList env connConfig2).2) ∧
      (FetchImagesForConnConfig env s2 connConfig2 nsId).2 = s2) := by
  have hrun : FetchImagesForConnConfig env s connConfig nsId =
      fetchImagesLoop env connConfig nsId images 0 s := by
    unfold FetchImagesForConnConfig
    rw [hlist]
  have herr := fetchImagesLoop_err_of_bad env connConfig nsId images 0 s hbad
  have hstore := fetchImagesLoop_store_takeWhile env connConfig nsId images 0 s
  refine ⟨?_, ?_, ?_, ?_, ?_, ?_⟩
  · rw [hrun]
    exact fetchImagesLoop_err_count env connConfig nsId images 0 s herr
  · rw [hrun]
    exact herr
  · rw [hrun]
    exact hstore
  · rw [hrun, hstore]
    exact fetchImagesLoop_entries env connConfig nsId _ 0 s
  · intro hok
    rw [hrun]
    exact fetchImagesLoop_conversion_error env connConfig nsId images 0 s hbad hok
  · intro s2 connConfig2 hfail
    obtain ⟨h0, h1, h2⟩ := FetchImagesForConnConfig_list_err env s2 connConfig2 nsId hfail
    exact ⟨Prod.ext h0 h1, h2⟩

/-- Witness of C12: the second of three listed records has an empty
identifier; the first is registered, the third is not, and the count is 0. -/
theorem C12_fetch_aborts_on_conversion_failure_witness :
    (FetchImagesForConnConfig brokenListEnv emptyStore "aws" "ns1").1 =
      (0, some "ConvertSpiderImageToTumblebugImage failed; spiderImage.IId.NameId == \"\" ") ∧
    (FetchImagesForConnConfig brokenListEnv emptyStore "aws" "ns1").2.kv.map
      (fun x => x.1.resourceId) = ["aws-ami-1"] ∧
    (FetchImagesForConnConfig brokenListEnv emptyStore "" "ns1").1 =
      (0, some "LookupImage() called with empty connConfig.") ∧
    (FetchImagesForConnConfig brokenListEnv emptyStore "" "ns1").2 = emptyStore :=
  ⟨Prod.ext
    (C12_fetch_aborts_on_conversion_failure brokenListEnv emptyStore "aws" "ns1"
      (LookupImageList brokenListEnv "aws").1.Image rfl (by decide)).1
    ((C12_fetch_aborts_on_conversion_failure brokenListEnv emptyStore "aws" "ns1"
      (LookupImageList brokenListEnv "aws").1.Image rfl (by decide)).2.2.2.2.1 (by decide)),
   by decide,
   ((C12_fetch_aborts_on_conversion_failure brokenListEnv emptyStore "aws" "ns1"
      (LookupImageList brokenListEnv "aws").1.Image rfl (by decide)).2.2.2.2.2
      emptyStore "" (by decide)).1,
   ((C12_fetch_aborts_on_conversion_failure brokenListEnv emptyStore "aws" "ns1"
      (LookupImageList brokenListEnv "aws").1.Image rfl (by decide)).2.2.2.2.2
      emptyStore "" (by decide)).2⟩

end Mcir
